import Mathlib

/-!
Verification model of the multi-provider tax-extraction pipeline of
AI-Tax-Filer-MCP.  The definitions below are a shallow embedding of the
second (enhanced) revision of the RAG extractor service found in the
repository source (the module-level utility functions `cleanJSONString`,
`safeJSONParse`, `parseAmount`, `extractYearFromText`, `extractCompanyInfo`,
`getDefaultTaxData`, `validateNumericValue`, `validateExpensesRatio`,
`validateTaxableAmount`, and the class methods `getProvidersToTry`,
`extractTaxData`, `extractCompanyDetails`, `extractTaxYear`,
`extractTaxAmounts`, `validateExtractedData`, `performCrossValidation`,
`applySoftConstraints`, `isSimplifiedResponse`, `parseSimplifiedResponse`,
`parseFinancialStatementFormat`, `extractFinancialData`,
`findFinancialItem`, `extractAmountFromText`, `parseAIResponse`,
`extractFromRawText`, `processStandardFormat`).

Modelling conventions:
- JavaScript numbers are modelled by `JNum`: NaN, the two infinities, or an
  exact rational.  Rationals stand in for IEEE doubles; every concrete value
  appearing in the claims is a small decimal that doubles represent exactly.
- JavaScript values produced by JSON.parse are modelled by `JValue`;
  `JValue.undef` models `undefined` (a missing property).
- A function that can throw is modelled with `Option` (`none` = thrown).
- `console.warn` / `console.log` diagnostics that the source accumulates in
  local arrays are modelled as returned `List String` components.
- The wall-clock call `new Date().getFullYear()` is modelled by the fixed
  constant `currentYear`.
- JavaScript regular expressions are executed by a small backtracking
  matcher (`reRun`) that reproduces leftmost matching, greedy/lazy
  repetition and first-alternative preference; each regex literal of the
  source is transcribed into a `RE` value next to its use.
-/

namespace TaxSpec

/-- Model of a JavaScript number: NaN, plus/minus infinity, or a finite
value represented exactly as a rational. -/
inductive JNum where
  | nan : JNum
  | inf : JNum
  | ninf : JNum
  | q : ℚ → JNum
deriving DecidableEq, Repr

namespace JNum

def isNaNb : JNum → Bool
  | nan => true
  | _ => false

def isFiniteb : JNum → Bool
  | q _ => true
  | _ => false

def neg : JNum → JNum
  | nan => nan
  | inf => ninf
  | ninf => inf
  | q x => q (-x)

def add : JNum → JNum → JNum
  | nan, _ => nan
  | _, nan => nan
  | inf, ninf => nan
  | ninf, inf => nan
  | inf, _ => inf
  | _, inf => inf
  | ninf, _ => ninf
  | _, ninf => ninf
  | q a, q b => q (a + b)

def sub (a b : JNum) : JNum := add a (neg b)

def mul : JNum → JNum → JNum
  | nan, _ => nan
  | _, nan => nan
  | inf, inf => inf
  | inf, ninf => ninf
  | ninf, inf => ninf
  | ninf, ninf => inf
  | inf, q b => if b = 0 then nan else if 0 < b then inf else ninf
  | q a, inf => if a = 0 then nan else if 0 < a then inf else ninf
  | ninf, q b => if b = 0 then nan else if 0 < b then ninf else inf
  | q a, ninf => if a = 0 then nan else if 0 < a then ninf else inf
  | q a, q b => q (a * b)

def div : JNum → JNum → JNum
  | nan, _ => nan
  | _, nan => nan
  | inf, inf => nan
  | inf, ninf => nan
  | ninf, inf => nan
  | ninf, ninf => nan
  | inf, q b => if 0 ≤ b then inf else ninf
  | ninf, q b => if 0 ≤ b then ninf else inf
  | q _, inf => q 0
  | q _, ninf => q 0
  | q a, q b =>
    if b = 0 then (if a = 0 then nan else if 0 < a then inf else ninf)
    else q (a / b)

/-- JavaScript `Math.abs`. -/
def absJ : JNum → JNum
  | nan => nan
  | inf => inf
  | ninf => inf
  | q x => q |x|

/-- JavaScript `<` on numbers (false whenever NaN is involved). -/
def ltb : JNum → JNum → Bool
  | nan, _ => false
  | _, nan => false
  | inf, _ => false
  | _, inf => true
  | ninf, ninf => false
  | ninf, _ => true
  | _, ninf => false
  | q a, q b => decide (a < b)

def gtb (a b : JNum) : Bool := ltb b a

def leb : JNum → JNum → Bool
  | nan, _ => false
  | _, nan => false
  | inf, inf => true
  | inf, _ => false
  | _, inf => true
  | ninf, _ => true
  | _, ninf => false
  | q a, q b => decide (a ≤ b)

/-- Strict equality `===` between two JavaScript numbers
(`NaN === NaN` is false). -/
def seqb : JNum → JNum → Bool
  | nan, _ => false
  | _, nan => false
  | inf, inf => true
  | ninf, ninf => true
  | q a, q b => decide (a = b)
  | _, _ => false

/-- Truthiness of a number (`0` and `NaN` are falsy). -/
def truthy : JNum → Bool
  | nan => false
  | q x => decide (x ≠ 0)
  | _ => true

end JNum

/-- Model of a JavaScript value as produced by `JSON.parse`, extended with
`undef` for `undefined` (the result of reading a missing property). -/
inductive JValue where
  | undef : JValue
  | null : JValue
  | bool : Bool → JValue
  | num : JNum → JValue
  | str : String → JValue
  | arr : List JValue → JValue
  | obj : List (String × JValue) → JValue
deriving Repr

namespace JValue

/-- Truthiness of a JavaScript value. -/
def truthy : JValue → Bool
  | undef => false
  | null => false
  | bool b => b
  | num n => n.truthy
  | str s => decide (s ≠ "")
  | arr _ => true
  | obj _ => true

/-- `typeof v === 'number'`. -/
def isNumber : JValue → Bool
  | num _ => true
  | _ => false

/-- The value is a finite, non-NaN number. -/
def isFiniteNumber : JValue → Bool
  | num (JNum.q _) => true
  | _ => false

def isUndef : JValue → Bool
  | undef => true
  | _ => false

def isNaNValue : JValue → Bool
  | num JNum.nan => true
  | _ => false

/-- Property read `o[k]`; yields `undef` for a missing property and on
non-objects.  (Member access on `null`/`undefined`, which throws in
JavaScript, is not reached by the modelled call sites with such bases.) -/
def getField : JValue → String → JValue
  | obj fields, k =>
    match fields.find? (fun p => p.1 = k) with
    | some p => p.2
    | none => undef
  | _, _ => undef

/-- The `in` operator on an object (`k in o`).  On arrays the modelled keys
are the element indices only, so the looked-up names are never present. -/
def hasProp : JValue → String → Bool
  | obj fields, k => fields.any (fun p => p.1 = k)
  | _, _ => false

/-- `Object.keys`.  For arrays the keys are index strings, none of which
coincides with the names tested by the source, so they are elided. -/
def keyList : JValue → List String
  | obj fields => fields.map (fun p => p.1)
  | _ => []

/-- Strict equality `===`.  Objects and arrays compare by reference; the
modelled comparisons always involve operands originating from distinct
syntactic positions, hence distinct references, so they compare unequal. -/
def strictEq : JValue → JValue → Bool
  | undef, undef => true
  | null, null => true
  | bool a, bool b => a == b
  | num a, num b => a.seqb b
  | str a, str b => a == b
  | _, _ => false

/-- JavaScript `a || b`. -/
def orElseJ (a b : JValue) : JValue := if a.truthy then a else b

end JValue

/-! ### JavaScript string helpers -/

/-- JavaScript whitespace (the characters recognised by `\s`, `trim` and
the number conversions). -/
def isJsWs (c : Char) : Bool :=
  c = ' ' ∨ c = '\t' ∨ c = '\n' ∨ c = '\r' ∨ c = Char.ofNat 0x0b ∨
  c = Char.ofNat 0x0c ∨ c = Char.ofNat 0xa0 ∨ c = Char.ofNat 0xfeff

def isWordChar (c : Char) : Bool :=
  c.isAlpha ∨ c.isDigit ∨ c = '_'

/-- `String.prototype.trim`. -/
def jsTrim (s : String) : String :=
  String.mk (((s.toList.dropWhile isJsWs).reverse.dropWhile isJsWs).reverse)

/-- Split at every occurrence of a separator character
(`String.prototype.split` with a one-character separator). -/
def splitOnCharAux (sep : Char) : List Char → List (List Char)
  | [] => [[]]
  | c :: rest =>
    match splitOnCharAux sep rest with
    | [] => if c = sep then [[], []] else [[c]]
    | h :: t => if c = sep then [] :: h :: t else (c :: h) :: t

def jsSplitChar (s : String) (sep : Char) : List String :=
  (splitOnCharAux sep s.toList).map String.mk

/-- `Array.prototype.join` with a separator. -/
def joinWith (sep : String) : List String → String
  | [] => ""
  | w :: rest => rest.foldl (fun acc x => acc ++ sep ++ x) w

def strStartsWith (s pre : String) : Bool := pre.toList.isPrefixOf s.toList

def strEndsWith (s suf : String) : Bool :=
  suf.toList.reverse.isPrefixOf s.toList.reverse

def listHasPrefixCI : List Char → List Char → Bool
  | _, [] => true
  | [], _ :: _ => false
  | c :: cs, d :: ds => (c.toLower == d.toLower) && listHasPrefixCI cs ds

/-- Case-insensitive substring search; returns the first index at which
`needle` occurs in `hay`. -/
def findCIFrom (hay needle : List Char) (i : Nat) : Option Nat :=
  match hay with
  | [] => if needle.isEmpty then some i else none
  | _ :: rest =>
    if listHasPrefixCI hay needle then some i else findCIFrom rest needle (i + 1)

def containsCI (hay needle : String) : Bool :=
  (findCIFrom hay.toList needle.toList 0).isSome

/-- Case-sensitive substring test (`String.prototype.includes`). -/
def includesSub (hay needle : String) : Bool :=
  let rec go : List Char → Bool
    | [] => needle.toList.isEmpty
    | c :: cs => (needle.toList.isPrefixOf (c :: cs)) || go cs
  go hay.toList

/-- Does `hay` contain, on a single line, the given needles in order with
arbitrary (newline-free) gaps?  This is the test semantics of a pattern
`a.*b.*c` under `/i` (the dot does not cross line terminators). -/
def lineSeqCI (hay : String) (needles : List String) : Bool :=
  (jsSplitChar hay (Char.ofNat 10)).any (fun line =>
    let rec go (cs : List Char) : List String → Bool
      | [] => true
      | n :: ns =>
        match findCIFrom cs n.toList 0 with
        | none => false
        | some i => go (cs.drop (i + n.length)) ns
    go line.toList needles)

/-! ### JavaScript number conversions -/

/-- Digits to a natural number. -/
def digitsToNat (ds : List Char) : Nat :=
  ds.foldl (fun acc c => acc * 10 + (c.toNat - '0'.toNat)) 0

/-- Value of an unsigned decimal: integer part, fraction digits,
exponent. -/
def decimalValue (ip : List Char) (fp : List Char) (ex : Int) : ℚ :=
  let base : ℚ := (digitsToNat ip : ℚ) + (digitsToNat fp : ℚ) / ((10 : ℚ) ^ fp.length)
  if 0 ≤ ex then base * (10 : ℚ) ^ ex.toNat else base / (10 : ℚ) ^ (-ex).toNat

/-- Parse an optional decimal exponent `e±ddd` prefix; returns the exponent
and the rest.  Unconsumed on failure. -/
def parseExp (cs : List Char) : Int × List Char :=
  match cs with
  | e :: rest =>
    if e = 'e' ∨ e = 'E' then
      match rest with
      | '+' :: ds =>
        let dig := ds.takeWhile Char.isDigit
        if dig.isEmpty then (0, cs) else ((digitsToNat dig : Int), ds.drop dig.length)
      | '-' :: ds =>
        let dig := ds.takeWhile Char.isDigit
        if dig.isEmpty then (0, cs) else (-(digitsToNat dig : Int), ds.drop dig.length)
      | ds =>
        let dig := ds.takeWhile Char.isDigit
        if dig.isEmpty then (0, cs) else ((digitsToNat dig : Int), ds.drop dig.length)
    else (0, cs)
  | [] => (0, cs)

/-- The longest numeric prefix of `cs` (after sign), as used by
`parseFloat`: digits, optional `.digits`, optional exponent.  Returns the
value and the remaining characters, or `none` when no digit is present. -/
def parseDecPrefix (cs : List Char) : Option (ℚ × List Char) :=
  let ip := cs.takeWhile Char.isDigit
  let rest1 := cs.drop ip.length
  let (fp, rest2) :=
    match rest1 with
    | '.' :: t => (t.takeWhile Char.isDigit, (t.dropWhile Char.isDigit))
    | _ => ([], rest1)
  if ip.isEmpty ∧ fp.isEmpty then none
  else
    let (ex, rest3) := parseExp rest2
    some (decimalValue ip fp ex, rest3)

/-- JavaScript `parseFloat`: skip leading whitespace, optional sign, then
the longest numeric prefix (also accepting `Infinity`); `NaN` if none. -/
def parseFloatJS (s : String) : JNum :=
  let cs := s.toList.dropWhile isJsWs
  let (sgn, cs) : (ℚ → ℚ) × List Char :=
    match cs with
    | '-' :: t => ((fun x => -x), t)
    | '+' :: t => ((fun x => x), t)
    | t => ((fun x => x), t)
  if "Infinity".toList.isPrefixOf cs then
    if sgn 1 = 1 then JNum.inf else JNum.ninf
  else
    match parseDecPrefix cs with
    | some (v, _) => JNum.q (sgn v)
    | none => JNum.nan

/-- JavaScript `parseInt(s, 10)`. -/
def parseIntJS (s : String) : JNum :=
  let cs := s.toList.dropWhile isJsWs
  let (neg, cs) : Bool × List Char :=
    match cs with
    | '-' :: t => (true, t)
    | '+' :: t => (false, t)
    | t => (false, t)
  let dig := cs.takeWhile Char.isDigit
  if dig.isEmpty then JNum.nan
  else JNum.q (if neg then -(digitsToNat dig : ℚ) else (digitsToNat dig : ℚ))

/-- JavaScript `Number(string)` (used by implicit numeric coercion):
the whole trimmed string must be numeric; the empty string is `0`.
Hexadecimal/octal/binary literals are not modelled (never produced by the
modelled call sites). -/
def numberOfString (s : String) : JNum :=
  let cs := s.toList.dropWhile isJsWs |>.reverse.dropWhile isJsWs |>.reverse
  match cs with
  | [] => JNum.q 0
  | _ =>
    let (sgn, cs') : (ℚ → ℚ) × List Char :=
      match cs with
      | '-' :: t => ((fun x => -x), t)
      | '+' :: t => ((fun x => x), t)
      | t => ((fun x => x), t)
    if cs' = "Infinity".toList then (if sgn 1 = 1 then JNum.inf else JNum.ninf)
    else
      match parseDecPrefix cs' with
      | some (v, []) => JNum.q (sgn v)
      | _ => JNum.nan

/-- `ToNumber` coercion of a value (used by arithmetic and relational
operators).  `toPrimitive` on objects and on arrays of two or more
elements is approximated by NaN; a one-element array coerces through its
element and the empty array to 0, mirroring the `join`-based conversion. -/
def toNumber : JValue → JNum
  | JValue.undef => JNum.nan
  | JValue.null => JNum.q 0
  | JValue.bool b => JNum.q (if b then 1 else 0)
  | JValue.num n => n
  | JValue.str s => numberOfString s
  | JValue.arr [] => JNum.q 0
  | JValue.arr [v] => toNumber v
  | JValue.arr _ => JNum.nan
  | JValue.obj _ => JNum.nan

/-! Arithmetic / comparison operators on values, via `ToNumber`. -/

def jvSub (a b : JValue) : JNum := (toNumber a).sub (toNumber b)
def jvGtb (a b : JValue) : Bool := (toNumber a).gtb (toNumber b)

/-- Decimal rendering of a rational for template-literal interpolation.
Exact when the denominator divides a power of ten (the only case the
pipeline produces); otherwise falls back to the reduced fraction. -/
def ratToDecimalString (x : ℚ) : String :=
  let sign := if x < 0 then "-" else ""
  let y := |x|
  let n := y.num.toNat
  let d := y.den
  let rec findPow (k : Nat) : Option Nat :=
    match k with
    | 0 => if d = 1 then some 0 else none
    | k' + 1 =>
      if (n * 10 ^ (40 - k)) % d = 0 then some (40 - k) else findPow k'
  match findPow 40 with
  | some p =>
    if p = 0 then sign ++ toString n
    else
      let scaled := n * 10 ^ p / d
      let ip := scaled / 10 ^ p
      let fp := scaled % 10 ^ p
      let fpStr := toString fp
      let fpPad := String.mk (List.replicate (p - fpStr.length) '0') ++ fpStr
      let fpTrim := String.mk (fpPad.toList.reverse.dropWhile (· = '0')).reverse
      if fpTrim = "" then sign ++ toString ip
      else sign ++ toString ip ++ "." ++ fpTrim
  | none => sign ++ toString n ++ "/" ++ toString d

/-- String conversion of a number (template literals). -/
def numToString : JNum → String
  | JNum.nan => "NaN"
  | JNum.inf => "Infinity"
  | JNum.ninf => "-Infinity"
  | JNum.q x => ratToDecimalString x

/-- String conversion of a value (template literals, `String(v)`).
Object stringification is the standard `[object Object]`. -/
def jvToString : JValue → String
  | JValue.undef => "undefined"
  | JValue.null => "null"
  | JValue.bool b => if b then "true" else "false"
  | JValue.num n => numToString n
  | JValue.str s => s
  | JValue.arr _ => ""
  | JValue.obj _ => "[object Object]"

/-! ### A small backtracking regex matcher

JavaScript regular expressions used by the source are transcribed into
`RE` values and executed by `reRun`, a continuation-passing backtracking
matcher that reproduces the JavaScript semantics needed here: leftmost
match, first-alternative preference, greedy (`star`/`opt`) and lazy
(`starL`) repetition, capture groups, the multiline `^` anchor and the
word boundary `\b`.  `Nat` fuel bounds the backtracking depth; the bound
`reFuel` is far above what any modelled pattern can consume. -/

inductive RE where
  | eps : RE
  | cls : (Char → Bool) → RE
  | seq : RE → RE → RE
  | alt : RE → RE → RE
  | star : RE → RE
  | starL : RE → RE
  | opt : RE → RE
  | grp : Nat → RE → RE
  | bol : RE
  | wb : RE

/-- Capture list: `(group index, start, stop)`, most recent first. -/
abbrev Caps := List (Nat × Nat × Nat)

def reRun (s : Array Char) (fuel : Nat) : RE → Nat → Caps →
    (Nat → Caps → Option (Nat × Caps)) → Option (Nat × Caps) :=
  Nat.rec (motive := fun _ => RE → Nat → Caps →
      (Nat → Caps → Option (Nat × Caps)) → Option (Nat × Caps))
    (fun _ _ _ _ => none)
    (fun _ ih r pos caps k =>
      match r with
      | RE.eps => k pos caps
      | RE.cls p =>
        match s[pos]? with
        | some c => if p c then k (pos + 1) caps else none
        | none => none
      | RE.seq a b => ih a pos caps (fun pp cc => ih b pp cc k)
      | RE.alt a b => (ih a pos caps k).orElse (fun _ => ih b pos caps k)
      | RE.star rr =>
        (ih rr pos caps (fun pp cc =>
          if pp = pos then none else ih (RE.star rr) pp cc k)).orElse
          (fun _ => k pos caps)
      | RE.starL rr =>
        (k pos caps).orElse (fun _ =>
          ih rr pos caps (fun pp cc =>
            if pp = pos then none else ih (RE.starL rr) pp cc k))
      | RE.opt rr => (ih rr pos caps k).orElse (fun _ => k pos caps)
      | RE.grp n rr => ih rr pos caps (fun pp cc => k pp ((n, pos, pp) :: cc))
      | RE.bol =>
        if pos = 0 then k pos caps
        else
          match s[pos - 1]? with
          | some c => if c = Char.ofNat 10 then k pos caps else none
          | none => none
      | RE.wb =>
        let before : Bool :=
          match s[pos - 1]? with
          | some c => decide (pos ≠ 0) && isWordChar c
          | none => false
        let after : Bool :=
          match s[pos]? with
          | some c => isWordChar c
          | none => false
        if before != after then k pos caps else none)
    fuel

def reFuel (s : Array Char) : Nat := (s.size + 64) * 512

/-- Leftmost match at or after `pos`: `(start, stop, captures)`. -/
def reFirstFrom (s : Array Char) (r : RE) : Nat → Nat → Option (Nat × Nat × Caps)
  | 0, _ => none
  | rem + 1, pos =>
    match reRun s (reFuel s) r pos [] (fun p c => some (p, c)) with
    | some (e, caps) => some (pos, e, caps)
    | none => reFirstFrom s r rem (pos + 1)

def reFirst (s : Array Char) (r : RE) : Option (Nat × Nat × Caps) :=
  reFirstFrom s r (s.size + 1) 0

/-- Substring `[a, b)` of the character array. -/
def subArr (s : Array Char) (a b : Nat) : String :=
  String.mk ((s.toList.drop a).take (b - a))

/-- Text of capture group `n` (empty when the group did not participate,
as in JavaScript replacement templates). -/
def capText (s : Array Char) (caps : Caps) (n : Nat) : String :=
  match caps.find? (fun t => t.1 = n) with
  | some (_, a, b) => subArr s a b
  | none => ""

/-- A replacement template: literal pieces and `$n` group references. -/
abbrev Tmpl := List (Sum String Nat)

def applyTmpl (s : Array Char) (caps : Caps) (t : Tmpl) : String :=
  t.foldl (fun acc p =>
    match p with
    | Sum.inl lit => acc ++ lit
    | Sum.inr n => acc ++ capText s caps n) ""

/-- Global `String.prototype.replace` with a template. -/
def reReplaceAux (s : Array Char) (r : RE) (t : Tmpl) : Nat → Nat → String → String
  | 0, pos, acc => acc ++ subArr s pos s.size
  | rem + 1, pos, acc =>
    match reFirstFrom s r (s.size + 1 - pos) pos with
    | none => acc ++ subArr s pos s.size
    | some (st, en, caps) =>
      let acc' := acc ++ subArr s pos st ++ applyTmpl s caps t
      if en > st then reReplaceAux s r t rem en acc'
      else reReplaceAux s r t rem (st + 1) (acc' ++ subArr s st (st + 1))

def reReplace (r : RE) (t : Tmpl) (input : String) : String :=
  let s := input.toList.toArray
  reReplaceAux s r t (s.size + 1) 0 ""

def reTest (r : RE) (input : String) : Bool :=
  (reFirst input.toList.toArray r).isSome

/-- First match of `r` in `input`: whole-match text and group-1 text
(`none` when group 1 did not participate). -/
def reMatch1 (r : RE) (input : String) : Option (String × Option String) :=
  let s := input.toList.toArray
  match reFirst s r with
  | none => none
  | some (st, en, caps) =>
    let g1 := match caps.find? (fun t => t.1 = 1) with
      | some (_, a, b) => some (subArr s a b)
      | none => none
    some (subArr s st en, g1)

/-! Combinators for transcribing the source patterns. -/

def reLit (c : Char) : RE := RE.cls (fun d => d == c)
def reLitCI (c : Char) : RE := RE.cls (fun d => d.toLower == c.toLower)
def reSeqAll (l : List RE) : RE := l.foldr RE.seq RE.eps
def reStr (t : String) : RE := reSeqAll (t.toList.map reLit)
def reStrCI (t : String) : RE := reSeqAll (t.toList.map reLitCI)
def reAltAll (l : List RE) : RE := l.foldr RE.alt (RE.cls (fun _ => false))
def rePlus (r : RE) : RE := RE.seq r (RE.star r)
def reWsCls : RE := RE.cls isJsWs
def reDigitCls : RE := RE.cls Char.isDigit
/-- The dot `.` (any character but a line terminator). -/
def reDot : RE := RE.cls (fun c => c ≠ '\n' ∧ c ≠ '\r')
/-- `[\s\S]` (truly any character). -/
def reAny : RE := RE.cls (fun _ => true)

/-! ### JSON.parse

A strict JSON parser modelling `JSON.parse` (success ↔ no exception).
Numbers are kept as exact rationals. -/

def lbraceC : Char := Char.ofNat 123
def rbraceC : Char := Char.ofNat 125
def squoteC : Char := Char.ofNat 39
def btickC : Char := Char.ofNat 96

def isJsonWs (c : Char) : Bool := c = ' ' ∨ c = '\t' ∨ c = '\n' ∨ c = '\r'

def skipJsonWs (cs : List Char) : List Char := cs.dropWhile isJsonWs

def hexVal (c : Char) : Option Nat :=
  if c.isDigit then some (c.toNat - '0'.toNat)
  else if 'a' ≤ c ∧ c ≤ 'f' then some (c.toNat - 'a'.toNat + 10)
  else if 'A' ≤ c ∧ c ≤ 'F' then some (c.toNat - 'A'.toNat + 10)
  else none

/-- Body of a JSON string after the opening quote. -/
def parseJString : Nat → List Char → List Char → Option (String × List Char)
  | 0, _, _ => none
  | _ + 1, _, [] => none
  | fuel + 1, acc, c :: rest =>
    if c = '"' then some (String.mk acc.reverse, rest)
    else if c = '\\' then
      match rest with
      | [] => none
      | e :: rest' =>
        if e = '"' then parseJString fuel ('"' :: acc) rest'
        else if e = '\\' then parseJString fuel ('\\' :: acc) rest'
        else if e = '/' then parseJString fuel ('/' :: acc) rest'
        else if e = 'b' then parseJString fuel (Char.ofNat 8 :: acc) rest'
        else if e = 'f' then parseJString fuel (Char.ofNat 12 :: acc) rest'
        else if e = 'n' then parseJString fuel ('\n' :: acc) rest'
        else if e = 'r' then parseJString fuel ('\r' :: acc) rest'
        else if e = 't' then parseJString fuel ('\t' :: acc) rest'
        else if e = 'u' then
          match rest' with
          | h1 :: h2 :: h3 :: h4 :: rest'' =>
            match hexVal h1, hexVal h2, hexVal h3, hexVal h4 with
            | some a, some b, some c', some d =>
              parseJString fuel (Char.ofNat (((a * 16 + b) * 16 + c') * 16 + d) :: acc) rest''
            | _, _, _, _ => none
          | _ => none
        else none
    else if c.toNat < 0x20 then none
    else parseJString fuel (c :: acc) rest

/-- A JSON number at the head of the input. -/
def parseJNumber (cs : List Char) : Option (ℚ × List Char) :=
  let (neg, cs1) : Bool × List Char :=
    match cs with
    | '-' :: t => (true, t)
    | t => (false, t)
  let ip := cs1.takeWhile Char.isDigit
  if ip.isEmpty then none
  else if ip.length > 1 ∧ ip.headI = '0' then none
  else
    let rest1 := cs1.drop ip.length
    let (fp, rest2, ok) : List Char × List Char × Bool :=
      match rest1 with
      | '.' :: t =>
        let d := t.takeWhile Char.isDigit
        (d, t.drop d.length, !d.isEmpty)
      | _ => ([], rest1, true)
    if !ok then none
    else
      match rest2 with
      | e :: t =>
        if e = 'e' ∨ e = 'E' then
          let (sgn, t1) : Int × List Char :=
            match t with
            | '+' :: u => (1, u)
            | '-' :: u => (-1, u)
            | u => (1, u)
          let ed := t1.takeWhile Char.isDigit
          if ed.isEmpty then none
          else
            let v := decimalValue ip fp (sgn * (digitsToNat ed : Int))
            some (if neg then -v else v, t1.drop ed.length)
        else
          let v := decimalValue ip fp 0
          some (if neg then -v else v, rest2)
      | [] =>
        let v := decimalValue ip fp 0
        some (if neg then -v else v, rest2)

/-- Insert a member, later duplicate keys overwriting earlier ones in
place (the `JSON.parse` behaviour). -/
def upsertField (fields : List (String × JValue)) (k : String) (v : JValue) :
    List (String × JValue) :=
  if fields.any (fun p => p.1 = k) then
    fields.map (fun p => if p.1 = k then (k, v) else p)
  else fields ++ [(k, v)]

mutual

def parseJV : Nat → List Char → Option (JValue × List Char)
  | 0, _ => none
  | fuel + 1, cs =>
    match skipJsonWs cs with
    | [] => none
    | c :: rest =>
      if c = 'n' then
        if "ull".toList.isPrefixOf rest then some (JValue.null, rest.drop 3) else none
      else if c = 't' then
        if "rue".toList.isPrefixOf rest then some (JValue.bool true, rest.drop 3) else none
      else if c = 'f' then
        if "alse".toList.isPrefixOf rest then some (JValue.bool false, rest.drop 4) else none
      else if c = '"' then
        match parseJString (rest.length + 1) [] rest with
        | some (s, r) => some (JValue.str s, r)
        | none => none
      else if c = '[' then
        match skipJsonWs rest with
        | ']' :: r => some (JValue.arr [], r)
        | _ => parseJArrElems fuel rest []
      else if c = lbraceC then
        match skipJsonWs rest with
        | d :: r =>
          if d = rbraceC then some (JValue.obj [], r)
          else parseJObjMembers fuel rest []
        | [] => none
      else
        match parseJNumber (c :: rest) with
        | some (v, r) => some (JValue.num (JNum.q v), r)
        | none => none

def parseJArrElems : Nat → List Char → List JValue → Option (JValue × List Char)
  | 0, _, _ => none
  | fuel + 1, cs, acc =>
    match parseJV fuel cs with
    | none => none
    | some (v, rest) =>
      match skipJsonWs rest with
      | ',' :: r => parseJArrElems fuel r (v :: acc)
      | ']' :: r => some (JValue.arr (v :: acc).reverse, r)
      | _ => none

def parseJObjMembers : Nat → List Char → List (String × JValue) →
    Option (JValue × List Char)
  | 0, _, _ => none
  | fuel + 1, cs, acc =>
    match skipJsonWs cs with
    | '"' :: rest =>
      match parseJString (rest.length + 1) [] rest with
      | none => none
      | some (k, r1) =>
        match skipJsonWs r1 with
        | ':' :: r2 =>
          match parseJV fuel r2 with
          | none => none
          | some (v, r3) =>
            let acc' := upsertField acc k v
            match skipJsonWs r3 with
            | ',' :: r4 => parseJObjMembers fuel r4 acc'
            | d :: r4 =>
              if d = rbraceC then some (JValue.obj acc', r4) else none
            | [] => none
        | _ => none
    | _ => none

end

/-- `JSON.parse` (`some` = the parsed value, `none` = a thrown
`SyntaxError`). -/
def jsonParse (s : String) : Option JValue :=
  let cs := s.toList
  match parseJV (2 * cs.length + 8) cs with
  | some (v, rest) => if (skipJsonWs rest).isEmpty then some v else none
  | none => none

/-! ### Embedding of the extractor source (second revision)

Each definition below transcribes the like-named function of the source
file; the original regex literal is quoted in a comment next to its
transcription. -/

/-- Models `new Date().getFullYear()` at a fixed evaluation date (no claim
depends on its value). -/
def currentYear : ℚ := 2025

/-- The canonical record shape `ExtractedTaxData`.  Fields hold arbitrary
JavaScript values because the source can propagate unvalidated values
(e.g. `undefined`) into them. -/
structure ExtractedTaxData where
  taxpayerName : JValue
  taxYear : JValue
  totalIncome : JValue
  totalExpenses : JValue
  totalDeductions : JValue
  taxableAmount : JValue
  taxId : JValue
  businessType : JValue
deriving Repr

/-- `getDefaultTaxData`. -/
def getDefaultTaxData : ExtractedTaxData where
  taxpayerName := JValue.str "Not provided"
  taxYear := JValue.num (JNum.q currentYear)
  totalIncome := JValue.num (JNum.q 0)
  totalExpenses := JValue.num (JNum.q 0)
  totalDeductions := JValue.num (JNum.q 0)
  taxableAmount := JValue.num (JNum.q 0)
  taxId := JValue.str "Not provided"
  businessType := JValue.str "Not specified"

/-- `validateNumericValue`: non-numbers, NaN and infinities become 0. -/
def validateNumericValue (v : JValue) : ℚ :=
  match v with
  | JValue.num (JNum.q x) => x
  | _ => 0

/-- `validateExpensesRatio` of the source (with `MAX_EXPENSE_RATIO = 5`);
the Lean name avoids a reserved suffix. -/
def validateExpensesCap (expenses income : ℚ) : ℚ :=
  if 0 < income ∧ income * 3 < expenses then min expenses (income * 5)
  else expenses

/-- `validateTaxableAmount`: the corrected value plus the optional
warning. -/
def validateTaxableAmount (taxableAmount calculatedTaxable totalIncome : ℚ) :
    ℚ × Option String :=
  let taxableDifference := |calculatedTaxable - taxableAmount|
  let significantDifference := max 1000 (totalIncome * (1 / 10))
  if significantDifference < taxableDifference then
    if taxableAmount = 0 ∧ calculatedTaxable ≠ 0 then
      (calculatedTaxable,
        some ("Taxable amount corrected to calculated value: " ++
          ratToDecimalString calculatedTaxable))
    else
      (taxableAmount, some "Taxable amount differs significantly from calculated value")
  else (taxableAmount, none)

/-- `applySoftConstraints` (enhanced revision).  The `warnings` array the
source accumulates and logs is returned as the second component. -/
def applySoftConstraints (data : ExtractedTaxData) : ExtractedTaxData × List String :=
  let tiq := validateNumericValue data.totalIncome
  let teq := validateNumericValue data.totalExpenses
  let tdq := validateNumericValue data.totalDeductions
  let taq := validateNumericValue data.taxableAmount
  let resetWarn (name : String) (orig : JValue) (v : ℚ) : List String :=
    if (JValue.num (JNum.q v)).strictEq orig then []
    else ["Invalid numeric value for " ++ name ++ ", reset to 0"]
  let w1 := resetWarn "totalIncome" data.totalIncome tiq ++
    resetWarn "totalExpenses" data.totalExpenses teq ++
    resetWarn "totalDeductions" data.totalDeductions tdq ++
    resetWarn "taxableAmount" data.taxableAmount taq
  let w2 :=
    if tiq ≤ 0 ∧ ¬ data.businessType.strictEq (JValue.str "Holding Company") = true then
      ["Revenue is zero or negative for operational company"]
    else []
  let te2 := validateExpensesCap teq tiq
  let w3 :=
    if te2 ≠ teq then ["Expenses were capped at maximum allowed ratio to revenue"]
    else []
  let calcT := tiq - te2 - tdq
  let vt := validateTaxableAmount taq calcT tiq
  let ta2 := vt.1
  let w4 := vt.2.toList
  ({ data with
      totalIncome := JValue.num (JNum.q tiq)
      totalExpenses := JValue.num (JNum.q te2)
      totalDeductions := JValue.num (JNum.q tdq)
      taxableAmount := JValue.num (JNum.q ta2) },
    w1 ++ w2 ++ w3 ++ w4)

/-! #### cleanJSONString / safeJSONParse -/

def quoteCls : RE := RE.cls (fun c => c == '"' || c == squoteC)
def wordCls : RE := RE.cls isWordChar
def closeBracketCls : RE := RE.cls (fun c => c == rbraceC || c == ']')

/-- Pattern of the fence stripper (three backticks, optional `json`,
whitespace — or whitespace then three backticks). -/
def fenceRE : RE :=
  RE.alt
    (reSeqAll [reStr (String.mk [btickC, btickC, btickC]), RE.opt (reStr "json"),
      RE.star reWsCls])
    (reSeqAll [RE.star reWsCls, reStr (String.mk [btickC, btickC, btickC])])

/-- Single-line comment pattern (two slashes then non-newlines). -/
def lineCommentRE : RE :=
  reSeqAll [reStr "//", RE.star (RE.cls (fun c => c ≠ '\n'))]

/-- Block comment pattern (slash-star, lazy any, star-slash). -/
def blockCommentRE : RE :=
  reSeqAll [reStr "/*", RE.starL reAny, reStr "*/"]

/-- Trailing-comma pattern: comma before whitespace and a closing
bracket; group 1 keeps the whitespace and bracket. -/
def trailingCommaRE : RE :=
  reSeqAll [reLit ',', RE.grp 1 (reSeqAll [RE.star reWsCls, closeBracketCls])]

/-- Property-name quoting pattern: optional quote, word, optional quote,
whitespace, colon. -/
def propQuoteRE : RE :=
  reSeqAll [RE.opt (RE.grp 1 quoteCls), RE.grp 2 (rePlus wordCls),
    RE.opt (RE.grp 3 quoteCls), RE.star reWsCls, reLit ':']

/-- Bare-word value quoting pattern: colon, whitespace, an alphabetic
word, whitespace, a comma or closing brace. -/
def bareValueRE : RE :=
  reSeqAll [reLit ':', RE.star reWsCls,
    RE.grp 1 (reSeqAll [RE.cls Char.isAlpha, RE.star wordCls]),
    RE.star reWsCls, RE.grp 2 (RE.cls (fun c => c == ',' || c == rbraceC))]

def wsPlusRE : RE := rePlus reWsCls

/-- `cleanJSONString` (`none` models the thrown
`Invalid JSON structure`). -/
def cleanJSONString (content : String) : Option String :=
  let cs := (jsTrim content).toList
  let cs :=
    match List.findIdx? (fun c => c = lbraceC) cs with
    | some i => if 0 < i then cs.drop i else cs
    | none => cs
  let cs :=
    match List.findIdx? (fun c => c = rbraceC) cs.reverse with
    | some ri =>
      let j := cs.length - 1 - ri
      if j + 1 < cs.length then cs.take (j + 1) else cs
    | none => cs
  let s := reReplace fenceRE [] (String.mk cs)
  let s := reReplace lineCommentRE [] s
  let s := reReplace blockCommentRE [] s
  let s := reReplace trailingCommaRE [Sum.inr 1] s
  let s := reReplace propQuoteRE [Sum.inl "\"", Sum.inr 2, Sum.inl "\":"] s
  let s := reReplace bareValueRE [Sum.inl ":\"", Sum.inr 1, Sum.inl "\"", Sum.inr 2] s
  let s := jsTrim (reReplace wsPlusRE [Sum.inl " "] s)
  if strStartsWith s (String.mk [lbraceC]) ∧ strEndsWith s (String.mk [rbraceC]) then
    some s
  else none

/-- The aggressive repairs of the rescue stage of `safeJSONParse`. -/
def rescueRepair (content : String) : String :=
  let s := reReplace (RE.cls (fun c => !(0x20 ≤ c.toNat ∧ c.toNat ≤ 0x7e))) [] content
  let s := reReplace wsPlusRE [Sum.inl " "] s
  let s := reReplace (reSeqAll [reLit ',', RE.star reWsCls, RE.grp 1 closeBracketCls])
    [Sum.inr 1] s
  let s := reReplace (reSeqAll [RE.grp 1 (rePlus wordCls), reLit ':'])
    [Sum.inl "\"", Sum.inr 1, Sum.inl "\":"] s
  let s := reReplace (reSeqAll [reLit ':', RE.star reWsCls, reLit squoteC,
      RE.grp 1 (RE.starL (RE.cls (fun c => c ≠ squoteC))), reLit squoteC,
      RE.star reWsCls, RE.grp 2 (RE.cls (fun c => c == ',' || c == rbraceC))])
    [Sum.inl ":\"", Sum.inr 1, Sum.inl "\"", Sum.inr 2] s
  let s := reReplace bareValueRE [Sum.inl ":\"", Sum.inr 1, Sum.inl "\"", Sum.inr 2] s
  -- `match(/{[\s\S]*}/)`: slice from the first opening brace to the last
  -- closing brace, when the latter follows the former.
  let cs := s.toList
  match List.findIdx? (fun c => c = lbraceC) cs with
  | none => s
  | some i =>
    match List.findIdx? (fun c => c = rbraceC) cs.reverse with
    | none => s
    | some ri =>
      let j := cs.length - 1 - ri
      if i < j then String.mk ((cs.drop i).take (j + 1 - i)) else s

/-- `safeJSONParse`: direct parse, then parse after cleaning, then the
rescue parse; `none` models the final thrown failure. -/
def safeJSONParse (content : String) : Option JValue :=
  match jsonParse content with
  | some v => some v
  | none =>
    match cleanJSONString content with
    | some cleaned =>
      match jsonParse cleaned with
      | some v => some v
      | none => jsonParse (rescueRepair content)
    | none => jsonParse (rescueRepair content)

/-! #### Cross-validation -/

/-- Return shape of `performCrossValidation` (`none` models `null`). -/
structure CrossValidationOutcome where
  correctedRevenue : Option JValue
  correctedProfitBeforeTax : Option JValue
  warnings : List String
  corrections : List String
deriving Repr

/-- `toFixed(1)` (round to one decimal, always showing it). -/
def toFixed1 (n : JNum) : String :=
  match n with
  | JNum.q x =>
    let v : ℚ := (⌊x * 10 + 1 / 2⌋ : ℚ) / 10
    let s := ratToDecimalString v
    if s.toList.contains '.' then s else s ++ ".0"
  | other => numToString other

/-- `performCrossValidation`. -/
def performCrossValidation (validation : JValue) (data : ExtractedTaxData) :
    CrossValidationOutcome :=
  let vRev := validation.getField "revenue"
  let vPbt := validation.getField "profitBeforeTax"
  let vNpat := validation.getField "netProfitAfterTax"
  let vRet := validation.getField "retainedEarnings"
  let vCos := validation.getField "costOfSales"
  -- 1. revenue validation
  let revCorrect :=
    vRev.truthy ∧ ¬ vRev.strictEq data.totalIncome = true ∧
    (jvGtb vRev (JValue.num (JNum.q 0)) ∧
      (data.totalIncome.strictEq (JValue.num (JNum.q 0)) ∨
        JNum.gtb ((JNum.absJ (jvSub vRev data.totalIncome)).div (toNumber vRev))
          (JNum.q (1 / 10))))
  let correctedRevenue := if revCorrect then some vRev else none
  let corr1 :=
    if revCorrect then
      ["Revenue corrected from " ++ jvToString data.totalIncome ++ " to " ++
        jvToString vRev]
    else []
  -- 2. profit-before-tax validation
  let pbtCorrect :=
    vPbt.truthy ∧ ¬ vPbt.strictEq data.taxableAmount = true ∧
    JNum.gtb (JNum.absJ (jvSub vPbt data.taxableAmount)) (JNum.q 100)
  let correctedProfitBeforeTax := if pbtCorrect then some vPbt else none
  let corr2 :=
    if pbtCorrect then
      ["Profit Before Tax corrected from " ++ jvToString data.taxableAmount ++
        " to " ++ jvToString vPbt]
    else []
  -- 3. gross-profit consistency
  let revenue := JValue.orElseJ ((correctedRevenue).getD JValue.null) data.totalIncome
  -- the source also computes a local `profitBeforeTax` here that no later
  -- check reads; it is omitted

  let w3 :=
    if jvGtb revenue (JValue.num (JNum.q 0)) ∧
        jvGtb data.totalExpenses (JValue.num (JNum.q 0)) then
      let grossProfit := jvSub revenue data.totalExpenses
      if vCos.truthy then
        let expectedGrossProfit := jvSub revenue vCos
        if JNum.gtb ((JNum.absJ (grossProfit.sub expectedGrossProfit)).div
            (toNumber revenue)) (JNum.q (1 / 5)) then
          ["Gross profit calculation may be inconsistent. Check cost of sales."]
        else []
      else []
    else []
  -- 4. retained-earnings consistency
  let w4 :=
    if vRet.truthy ∧ vNpat.truthy then
      if jvGtb vRet (JValue.num (JNum.q 0)) ∧
          JNum.leb (toNumber vNpat) (JNum.q 0) then
        ["Retained earnings positive but net profit is not positive - check for dividends or prior year adjustments"]
      else []
    else []
  -- 5. before/after tax relationship
  let w5 :=
    if vPbt.truthy ∧ vNpat.truthy then
      let taxAmount := jvSub vPbt vNpat
      if taxAmount.ltb (JNum.q 0) then
        ["Net profit after tax exceeds profit before tax - this may indicate tax credits or errors"]
      else if jvGtb vPbt (JValue.num (JNum.q 0)) ∧
          JNum.gtb (taxAmount.div (toNumber vPbt)) (JNum.q (1 / 2)) then
        ["Tax rate appears unusually high (" ++
          toFixed1 ((taxAmount.div (toNumber vPbt)).mul (JNum.q 100)) ++ "%)"]
      else []
    else []
  { correctedRevenue := correctedRevenue
    correctedProfitBeforeTax := correctedProfitBeforeTax
    warnings := w3 ++ w4 ++ w5
    corrections := corr1 ++ corr2 }

/-- The eight canonical properties of a parsed object, as the spread
`{...data}` restricted to the canonical record shape. -/
def toTaxRecord (data : JValue) : ExtractedTaxData where
  taxpayerName := data.getField "taxpayerName"
  taxYear := data.getField "taxYear"
  totalIncome := data.getField "totalIncome"
  totalExpenses := data.getField "totalExpenses"
  totalDeductions := data.getField "totalDeductions"
  taxableAmount := data.getField "taxableAmount"
  taxId := data.getField "taxId"
  businessType := data.getField "businessType"

/-- `validateExtractedData` (the `Enhanced` shape handler): apply the
cross-validation corrections, soft constraints, and drop the validation
payload. -/
def validateExtractedData (data : JValue) : ExtractedTaxData :=
  let rec0 := toTaxRecord data
  let vd := data.getField "validationData"
  let rec1 :=
    if vd.truthy then
      let res := performCrossValidation vd rec0
      { rec0 with
          totalIncome := (res.correctedRevenue).getD rec0.totalIncome
          taxableAmount := (res.correctedProfitBeforeTax).getD rec0.taxableAmount }
    else rec0
  (applySoftConstraints rec1).1

/-! #### Shape classification and the per-shape mappings -/

/-- `isSimplifiedResponse`. -/
def isSimplifiedResponse (data : JValue) : Bool :=
  (data.keyList.any (fun k =>
    ["Revenue", "ProfitBeforeTax", "Expenses", "Income", "Sales", "Turnover"].contains k)) &&
  !data.hasProp "taxpayerName" && !data.hasProp "Balance_Sheet" &&
  !data.hasProp "Profit_and_Loss"

/-- A source regex object: its boolean `test` and its `source` string (the
latter consulted via `includes` by `extractAmountFromText`). -/
structure JsPattern where
  test : String → Bool
  source : String

/-- `/revenue|sales|turnover/i`. -/
def patRevenueScan : JsPattern where
  test := fun s => containsCI s "revenue" || containsCI s "sales" || containsCI s "turnover"
  source := "revenue|sales|turnover"

/-- `/expenses|costs/i`. -/
def patExpensesScan : JsPattern where
  test := fun s => containsCI s "expenses" || containsCI s "costs"
  source := "expenses|costs"

/-- `/profit.*before.*tax/i`. -/
def patProfitScan : JsPattern where
  test := fun s => lineSeqCI s ["profit", "before", "tax"]
  source := "profit.*before.*tax"

/-- `/capital.*allowances?|deductions?/i`. -/
def patDeductionsScan : JsPattern where
  test := fun s => lineSeqCI s ["capital", "allowance"] || containsCI s "deduction"
  source := "capital.*allowances?|deductions?"

/-- The mojibake currency literals exactly as they stand in the source
file (`GH` followed by U+00AC U+00A2, and U+201A U+00C7 U+00B5). -/
def ghLit : String := "GH" ++ String.mk [Char.ofNat 0xac, Char.ofNat 0xa2]
def cediLit : String := String.mk [Char.ofNat 0x201a, Char.ofNat 0xc7, Char.ofNat 0xb5]

/-- `[\d,]+(?:\.\d+)?`. -/
def numCoreRE : RE :=
  reSeqAll [rePlus (RE.cls (fun c => c.isDigit || c == ',')),
    RE.opt (reSeqAll [reLit '.', rePlus reDigitCls])]

/-- `\d{1,3}(?:,\d{3})*(?:\.\d+)?` (the strict grouped number). -/
def groupedNumRE : RE :=
  reSeqAll [reDigitCls, RE.opt (reSeqAll [reDigitCls, RE.opt reDigitCls]),
    RE.star (reSeqAll [reLit ',', reDigitCls, reDigitCls, reDigitCls]),
    RE.opt (reSeqAll [reLit '.', rePlus reDigitCls])]

def currencyRE : RE := RE.alt (reStr ghLit) (reStr cediLit)

/-- The four per-line number patterns of `extractAmountFromText`, in
order. -/
def lineNumberREs : List RE :=
  [ -- `\(\s*(?:GH..|...)?\s*([\d,]+(?:\.\d+)?)\s*\)`
    reSeqAll [reLit '(', RE.star reWsCls, RE.opt currencyRE, RE.star reWsCls,
      RE.grp 1 numCoreRE, RE.star reWsCls, reLit ')'],
    -- `(?:GH..|...)\s*([\d,]+(?:\.\d+)?)`
    reSeqAll [currencyRE, RE.star reWsCls, RE.grp 1 numCoreRE],
    -- `\(\s*([\d,]+(?:\.\d+)?)\s*\)`
    reSeqAll [reLit '(', RE.star reWsCls, RE.grp 1 numCoreRE, RE.star reWsCls,
      reLit ')'],
    -- `([\d,]+(?:\.\d+)?)`
    RE.grp 1 numCoreRE ]

def stripCommas (s : String) : String :=
  String.mk (s.toList.filter (fun c => c ≠ ','))

/-- One step of the per-line scan: the first of the four number patterns
that yields a non-NaN, non-zero amount (parentheses negate). -/
def lineAmount (line : String) : Option JNum :=
  (lineNumberREs.findSome? (fun r =>
    match reMatch1 r line with
    | some (m0, some g1) =>
      let amount := parseFloatJS (stripCommas g1)
      let amount :=
        if m0.toList.contains '(' ∧ m0.toList.contains ')' then
          (amount.absJ).neg
        else amount
      if !amount.isNaNb ∧ ¬ amount.seqb (JNum.q 0) then some amount else none
    | _ => none))

/-- `(?:GH..)?\s*` as it appears in the specific fall-back patterns. -/
def ghOptWs : RE := reSeqAll [RE.opt (reStr ghLit), RE.star reWsCls]

/-- The specific revenue patterns of the fall-back branch. -/
def revenueFallbackREs : List RE :=
  [ reSeqAll [reStrCI "revenue", rePlus reWsCls, ghOptWs, RE.grp 1 groupedNumRE],
    reSeqAll [reStrCI "sales", rePlus reWsCls, ghOptWs, RE.grp 1 groupedNumRE],
    reSeqAll [reStrCI "turnover", rePlus reWsCls, ghOptWs, RE.grp 1 groupedNumRE] ]

/-- The specific profit-before-tax patterns with their
negate-on-parentheses flags. -/
def profitFallbackREs : List (RE × Bool) :=
  [ (reSeqAll [reStrCI "profit", rePlus reWsCls, reStrCI "before", rePlus reWsCls,
      reStrCI "tax", rePlus reWsCls, reLit '(', RE.grp 1 groupedNumRE, reLit ')'],
      true),
    (reSeqAll [reStrCI "profit", rePlus reWsCls, reStrCI "before", rePlus reWsCls,
      reStrCI "tax", rePlus reWsCls, ghOptWs, RE.grp 1 groupedNumRE], false),
    (reSeqAll [reStrCI "profit", RE.star reDot, reStrCI "before", RE.star reDot,
      reStrCI "tax", RE.star reDot, reLit '(', RE.grp 1 groupedNumRE, reLit ')'],
      true) ]

/-- The specific expense patterns. -/
def expenseFallbackREs : List RE :=
  [ reSeqAll [reStrCI "general", RE.star reWsCls, RE.opt (reLit '&'),
      RE.star reWsCls,
      RE.alt (reSeqAll [reStrCI "admi", RE.opt (reLitCI 'n'), RE.opt (reLit '.')])
        (reStrCI "administrative"),
      RE.star reWsCls, reStrCI "expense", RE.opt (reLitCI 's'), rePlus reWsCls,
      reLit '(', RE.grp 1 groupedNumRE, reLit ')'],
    reSeqAll [reStrCI "operating", rePlus reWsCls, reStrCI "expense",
      RE.opt (reLitCI 's'), rePlus reWsCls, ghOptWs, RE.grp 1 groupedNumRE],
    reSeqAll [reStrCI "total", rePlus reWsCls, ghOptWs, RE.grp 1 groupedNumRE] ]

/-- The specific deduction patterns. -/
def deductionFallbackREs : List RE :=
  [ reSeqAll [reStrCI "capital", rePlus reWsCls, reStrCI "allowance",
      RE.opt (reLitCI 's'), rePlus reWsCls, reLit '(', RE.grp 1 groupedNumRE,
      reLit ')'],
    reSeqAll [reStrCI "capital", rePlus reWsCls, reStrCI "allowance",
      RE.opt (reLitCI 's'), rePlus reWsCls, ghOptWs, RE.grp 1 groupedNumRE],
    reSeqAll [reStrCI "depreciation", rePlus reWsCls, ghOptWs,
      RE.grp 1 groupedNumRE] ]

/-- `extractAmountFromText` (enhanced revision): per-line scan with the
four number patterns, then the pattern-specific whole-text searches. -/
def extractAmountFromText (text : String) (pattern : JsPattern) : JNum :=
  match (jsSplitChar text (Char.ofNat 10)).findSome? (fun line =>
      if pattern.test line then lineAmount line else none) with
  | some a => a
  | none =>
    if includesSub pattern.source "revenue" then
      match revenueFallbackREs.findSome? (fun r => (reMatch1 r text).bind (·.2)) with
      | some g1 => parseFloatJS (stripCommas g1)
      | none => JNum.q 0
    else if includesSub pattern.source "profit.*before.*tax" then
      match profitFallbackREs.findSome? (fun pr =>
          ((reMatch1 pr.1 text).bind (·.2)).map (fun g1 => (g1, pr.2))) with
      | some (g1, negFlag) =>
        let amount := parseFloatJS (stripCommas g1)
        if negFlag then amount.neg else amount
      | none => JNum.q 0
    else if includesSub pattern.source "expenses" then
      match expenseFallbackREs.findSome? (fun r => (reMatch1 r text).bind (·.2)) with
      | some g1 => parseFloatJS (stripCommas g1)
      | none => JNum.q 0
    else if includesSub pattern.source "capital.*allowances?|deductions?" then
      match deductionFallbackREs.findSome? (fun r => (reMatch1 r text).bind (·.2)) with
      | some g1 => parseFloatJS (stripCommas g1)
      | none => JNum.q 0
    else JNum.q 0

/-! #### Company / year heuristics -/

/-- `/\b\w+.*LIMITED\b/i`. -/
def limitedLineRE : RE :=
  reSeqAll [RE.wb, rePlus wordCls, RE.star reDot, reStrCI "limited", RE.wb]

/-- `/^([A-Z][A-Z\s&]+(?:COMPANY|LIMITED|LTD|INC|CORP))/m` (case
sensitive, multiline anchor). -/
def companyNameRE : RE :=
  reSeqAll [RE.bol,
    RE.grp 1 (reSeqAll [RE.cls (fun c => 'A' ≤ c ∧ c ≤ 'Z'),
      rePlus (RE.cls (fun c => ('A' ≤ c ∧ c ≤ 'Z') ∨ isJsWs c ∨ c = '&')),
      reAltAll [reStr "COMPANY", reStr "LIMITED", reStr "LTD", reStr "INC",
        reStr "CORP"]])]

/-- Business-type inference from a matched company name
(`/TECHNOLOGY|TECH|SOFTWARE|IT/i` etc.). -/
def inferBusinessType (name : String) (dflt : String) : String :=
  if containsCI name "technology" || containsCI name "tech" ||
      containsCI name "software" || containsCI name "it" then "Technology"
  else if containsCI name "trading" || containsCI name "trade" then "Trading"
  else if containsCI name "construction" || containsCI name "build" then
    "Construction"
  else dflt

/-- `extractCompanyInfo` (module-level helper): first a line carrying a
`LIMITED` token, then the all-caps company-name pattern. -/
def extractCompanyInfo (text : String) : String × String :=
  let lines := jsSplitChar text (Char.ofNat 10)
  let found := lines.findSome? (fun line =>
    let t := jsTrim line
    if t ≠ "" ∧ reTest limitedLineRE t then some t else none)
  match found with
  | some t =>
    let words := jsSplitChar t ' '
    let ty :=
      match List.findIdx? (fun w => containsCI w "limited") words with
      | some i =>
        if 0 < i then jsTrim (joinWith " " (words.take i))
        else "Not provided"
      | none => "Not provided"
    (t, ty)
  | none =>
    match reMatch1 companyNameRE text with
    | some (_, some g1) =>
      let name := jsTrim g1
      (name, inferBusinessType name "Not provided")
    | _ => ("Not provided", "Not provided")

/-- The header patterns of `extractCompanyDetails`
(`/Statement\s+of.*for\s+(.+)/i` and companions). -/
def headerREs : List RE :=
  [ reSeqAll [reStrCI "statement", rePlus reWsCls, reStrCI "of", RE.star reDot,
      reStrCI "for", rePlus reWsCls, RE.grp 1 (rePlus reDot)],
    reSeqAll [reStrCI "financial", rePlus reWsCls, reStrCI "statements",
      RE.star reDot, reStrCI "of", rePlus reWsCls, RE.grp 1 (rePlus reDot)],
    reSeqAll [RE.grp 1 (rePlus reDot), rePlus reWsCls, reStrCI "financial",
      rePlus reWsCls, reStrCI "statements"] ]

/-- `extractCompanyDetails` (class method): the two patterns of
`extractCompanyInfo` plus the financial-statement header patterns. -/
def extractCompanyDetails (documentText : String) : String × String :=
  let lines := jsSplitChar documentText (Char.ofNat 10)
  let found := lines.findSome? (fun line =>
    let t := jsTrim line
    if t ≠ "" ∧ reTest limitedLineRE t then some t else none)
  match found with
  | some t =>
    let words := jsSplitChar t ' '
    let ty :=
      match List.findIdx? (fun w => containsCI w "limited") words with
      | some i =>
        if 0 < i then jsTrim (joinWith " " (words.take i))
        else "Not provided"
      | none => "Not provided"
    (t, ty)
  | none =>
    match reMatch1 companyNameRE documentText with
    | some (_, some g1) =>
      let name := jsTrim g1
      (name, inferBusinessType name "Not provided")
    | _ =>
      match headerREs.findSome? (fun r =>
          match reMatch1 r documentText with
          | some (_, some g1) =>
            let extracted := jsTrim g1
            if 3 < extracted.length ∧ extracted.length < 100 then some extracted
            else none
          | _ => none) with
      | some name => (name, "Not provided")
      | none => ("Not provided", "Not provided")

/-- `/(?:20\d{2})/`. -/
def yearRE : RE := reSeqAll [reLit '2', reLit '0', reDigitCls, reDigitCls]

/-- `extractYearFromText` (module-level helper). -/
def extractYearFromText (text : String) : ℚ :=
  match reMatch1 yearRE text with
  | some (m0, _) =>
    match parseIntJS m0 with
    | JNum.q v => v
    | _ => currentYear
  | none => currentYear

/-- `extractTaxYear` (class method; same computation). -/
def extractTaxYear (documentText : String) : ℚ := extractYearFromText documentText

/-! #### Text-extraction fallback (`extractTaxAmounts`) -/

/-- `parseAmount`: the captured group (commas stripped) through
`parseFloat`, negated when the capture carries both parentheses. -/
def parseAmount (m : Option String) : JNum :=
  match m with
  | none => JNum.q 0
  | some g =>
    if g = "" then JNum.q 0
    else
      let numStr := stripCommas g
      if numStr.toList.contains '(' ∧ numStr.toList.contains ')' then
        (parseFloatJS
          (String.mk (numStr.toList.filter (fun c => c ≠ '(' ∧ c ≠ ')')))).neg
      else parseFloatJS numStr

/-- `X[^\d]+([-\d,()]+)` for a label `X`. -/
def labelAmountRE (label : RE) : RE :=
  reSeqAll [label, rePlus (RE.cls (fun c => !c.isDigit)),
    RE.grp 1 (rePlus (RE.cls (fun c =>
      c = '-' ∨ c.isDigit ∨ c = ',' ∨ c = '(' ∨ c = ')')))]

/-- Group 1 of the first match of `r` in `text`. -/
def cap1 (r : RE) (text : String) : Option String :=
  (reMatch1 r text).bind (·.2)

/-- Output shape of `extractTaxAmounts`. -/
structure TaxAmounts where
  totalIncome : JNum
  totalExpenses : JNum
  totalDeductions : JNum
  taxableAmount : JNum
deriving Repr

/-- `extractTaxAmounts`: regex capture of revenue, expenses, deductions
and profit-before-tax amounts from document text. -/
def extractTaxAmounts (content : String) : TaxAmounts :=
  -- `/Revenue[^\d]+([-\d,()]+)/i`, `/Other\s+income[^\d]+([-\d,()]+)/i`
  let revenue := parseAmount (cap1 (labelAmountRE (reStrCI "revenue")) content)
  let otherIncome := parseAmount (cap1 (labelAmountRE
    (reSeqAll [reStrCI "other", rePlus reWsCls, reStrCI "income"])) content)
  let totalIncome := revenue.add otherIncome
  -- `(?:General|Administrative|Operating)\s+expenses?`, `Cost\s+of\s+sales`,
  -- `Direct\s+expenses?` (each with `[^\d]+([-\d,()]+)` and /i)
  let e1 := parseAmount (cap1 (labelAmountRE (reSeqAll [
    reAltAll [reStrCI "general", reStrCI "administrative", reStrCI "operating"],
    rePlus reWsCls, reStrCI "expense", RE.opt (reLitCI 's')])) content)
  let e2 := parseAmount (cap1 (labelAmountRE (reSeqAll [reStrCI "cost",
    rePlus reWsCls, reStrCI "of", rePlus reWsCls, reStrCI "sales"])) content)
  let e3 := parseAmount (cap1 (labelAmountRE (reSeqAll [reStrCI "direct",
    rePlus reWsCls, reStrCI "expense", RE.opt (reLitCI 's')])) content)
  let totalExpenses := (((JNum.q 0).add e1).add e2).add e3
  -- `Capital\s+allowances?`, `Depreciation`, `Tax\s+relief`,
  -- `Allowable\s+deductions?`
  let d1 := parseAmount (cap1 (labelAmountRE (reSeqAll [reStrCI "capital",
    rePlus reWsCls, reStrCI "allowance", RE.opt (reLitCI 's')])) content)
  let d2 := parseAmount (cap1 (labelAmountRE (reStrCI "depreciation")) content)
  let d3 := parseAmount (cap1 (labelAmountRE (reSeqAll [reStrCI "tax",
    rePlus reWsCls, reStrCI "relief"])) content)
  let d4 := parseAmount (cap1 (labelAmountRE (reSeqAll [reStrCI "allowable",
    rePlus reWsCls, reStrCI "deduction", RE.opt (reLitCI 's')])) content)
  let totalDeductions := ((((JNum.q 0).add d1).add d2).add d3).add d4
  -- `/Profit\s+before\s+tax[^\d]+([-\d,()]+)/i`
  let taxableAmount := parseAmount (cap1 (labelAmountRE (reSeqAll [
    reStrCI "profit", rePlus reWsCls, reStrCI "before", rePlus reWsCls,
    reStrCI "tax"])) content)
  let taxableAmount :=
    if taxableAmount.seqb (JNum.q 0) then
      (totalIncome.sub totalExpenses).sub totalDeductions
    else taxableAmount
  { totalIncome := totalIncome, totalExpenses := totalExpenses,
    totalDeductions := totalDeductions, taxableAmount := taxableAmount }

/-! #### Financial-statement shape -/

/-- Account-label test `/revenue|income|sales|turnover/i`. -/
def revAccountTest (s : String) : Bool :=
  containsCI s "revenue" || containsCI s "income" || containsCI s "sales" ||
  containsCI s "turnover"

/-- Account-label test for expenses (a qualifier word and `expense` in
either order on one line). -/
def expAccountTest (s : String) : Bool :=
  lineSeqCI s ["general", "expense"] || lineSeqCI s ["administrative", "expense"] ||
  lineSeqCI s ["operating", "expense"] || lineSeqCI s ["total", "expense"] ||
  lineSeqCI s ["expense", "general"] || lineSeqCI s ["expense", "administrative"] ||
  lineSeqCI s ["expense", "operating"] || lineSeqCI s ["expense", "total"]

/-- Account-label test `/profit.*before.*tax|income.*before.*tax/i`. -/
def pbtAccountTest (s : String) : Bool :=
  lineSeqCI s ["profit", "before", "tax"] || lineSeqCI s ["income", "before", "tax"]

/-- Account-label test
`/capital.*allowances?|depreciation|deductions?|tax.*relief/i`. -/
def dedAccountTest (s : String) : Bool :=
  lineSeqCI s ["capital", "allowance"] || containsCI s "depreciation" ||
  containsCI s "deduction" || lineSeqCI s ["tax", "relief"]

/-- `findFinancialItem`: first item whose `Account` passes the test, then
the first listed property holding a non-NaN number. -/
def findFinancialItem (items : List JValue) (accountTest : String → Bool)
    (propertyNames : List String) : JNum :=
  match items.find? (fun it => accountTest (jvToString (it.getField "Account"))) with
  | none => JNum.q 0
  | some it =>
    let rec go : List String → JNum
      | [] => JNum.q 0
      | p :: ps =>
        match it.getField p with
        | JValue.num n => if n.isNaNb then go ps else n
        | _ => go ps
    go propertyNames

/-- Output shape of `extractFinancialData`. -/
structure FinancialFigures where
  revenue : JNum
  expenses : JNum
  deductions : JNum
  profitBeforeTax : JNum
  retainedEarnings : JValue
deriving Repr

/-- `extractFinancialData`: scan the `Profit_and_Loss` array with the
per-category property priorities of the source. -/
def extractFinancialData (data : JValue) : FinancialFigures :=
  let profitAndLoss :=
    match data.getField "Profit_and_Loss" with
    | JValue.arr xs => xs
    | _ => []
  let retainedEarningsData :=
    match data.getField "Retained_Earnings" with
    | JValue.arr xs => xs
    | _ => []
  { revenue := findFinancialItem profitAndLoss revAccountTest
      ["Amount", "Expenses", "Total_Income"]
    expenses := findFinancialItem profitAndLoss expAccountTest
      ["Expenses", "Amount", "Cost", "Total_Expenses"]
    profitBeforeTax := findFinancialItem profitAndLoss pbtAccountTest ["Amount"]
    deductions := findFinancialItem profitAndLoss dedAccountTest
      ["Amount", "Expenses"]
    retainedEarnings := JValue.orElseJ
      ((retainedEarningsData.headD JValue.undef).getField "Retained_Earnings")
      (JValue.num (JNum.q 0)) }

/-- `parseFinancialStatementFormat`. -/
def parseFinancialStatementFormat (data : JValue) (originalDocumentText : String) :
    ExtractedTaxData :=
  let companyName := (extractCompanyInfo originalDocumentText).1
  let businessType := (extractCompanyInfo originalDocumentText).2
  let taxYear := extractYearFromText originalDocumentText
  let f := extractFinancialData data
  let result : ExtractedTaxData :=
    { taxpayerName := JValue.str companyName
      taxYear := JValue.num (JNum.q taxYear)
      totalIncome := JValue.num f.revenue
      totalExpenses := JValue.num f.expenses
      totalDeductions := JValue.num f.deductions
      taxableAmount := JValue.num
        (if f.profitBeforeTax.truthy then f.profitBeforeTax
         else (f.revenue.sub f.expenses).sub f.deductions)
      taxId := JValue.str "Not provided"
      businessType := JValue.str businessType }
  (applySoftConstraints result).1

/-! #### Simplified shape -/

/-- The `||`-chain computing the simplified revenue figure. -/
def simplifiedRevenue (data : JValue) (originalDocumentText : String) : JValue :=
  JValue.orElseJ (data.getField "Revenue") (JValue.orElseJ (data.getField "Income")
    (JValue.orElseJ (data.getField "Sales") (JValue.orElseJ (data.getField "Turnover")
      (JValue.num (extractAmountFromText originalDocumentText patRevenueScan)))))

/-- The `||`-chain computing the simplified expenses figure. -/
def simplifiedExpenses (data : JValue) (originalDocumentText : String) : JValue :=
  JValue.orElseJ (data.getField "Expenses")
    (JValue.orElseJ (data.getField "TotalExpenses")
      (JValue.num (extractAmountFromText originalDocumentText patExpensesScan)))

/-- The `||`-chain computing the simplified profit-before-tax figure. -/
def simplifiedProfitBeforeTax (data : JValue) (originalDocumentText : String) :
    JValue :=
  JValue.orElseJ (data.getField "ProfitBeforeTax")
    (JValue.orElseJ (data.getField "Profit_Before_Tax")
      (JValue.num (extractAmountFromText originalDocumentText patProfitScan)))

/-- The `||`-chain computing the simplified deductions figure. -/
def simplifiedDeductions (data : JValue) (originalDocumentText : String) : JValue :=
  JValue.orElseJ (data.getField "Deductions")
    (JValue.orElseJ (data.getField "CapitalAllowances")
      (JValue.num (extractAmountFromText originalDocumentText patDeductionsScan)))

/-- `parseSimplifiedResponse`. -/
def parseSimplifiedResponse (data : JValue) (originalDocumentText : String) :
    ExtractedTaxData :=
  let companyName := (extractCompanyDetails originalDocumentText).1
  let businessType := (extractCompanyDetails originalDocumentText).2
  let taxYear := extractTaxYear originalDocumentText
  let revenue := simplifiedRevenue data originalDocumentText
  let expenses := simplifiedExpenses data originalDocumentText
  let profitBeforeTax := simplifiedProfitBeforeTax data originalDocumentText
  let deductions := simplifiedDeductions data originalDocumentText
  let extractedData : ExtractedTaxData :=
    { taxpayerName := JValue.str companyName
      taxYear := JValue.num (JNum.q taxYear)
      totalIncome := revenue
      totalExpenses := expenses
      totalDeductions := deductions
      taxableAmount := JValue.orElseJ profitBeforeTax
        (JValue.num ((jvSub revenue expenses).sub (toNumber deductions)))
      taxId := JValue.str "Not provided"
      businessType := JValue.str businessType }
  (applySoftConstraints extractedData).1

/-! #### Standard shape, fallback, and the response parser -/

/-- `processStandardFormat`. -/
def processStandardFormat (data : JValue) (originalText : String) :
    ExtractedTaxData :=
  let _ := originalText
  let bd := data.getField "detailedBreakdown"
  if bd.truthy then
    let normalizedData : ExtractedTaxData :=
      { taxpayerName := JValue.orElseJ (data.getField "taxpayerName")
          (JValue.str "Not provided")
        taxYear := JValue.orElseJ (data.getField "taxYear")
          (JValue.num (JNum.q currentYear))
        totalIncome := JValue.orElseJ (bd.getField "revenue")
          (JValue.orElseJ (data.getField "totalIncome") (JValue.num (JNum.q 0)))
        totalExpenses := JValue.orElseJ (bd.getField "generalAdminExpenses")
          (JValue.orElseJ (data.getField "totalExpenses") (JValue.num (JNum.q 0)))
        totalDeductions := JValue.orElseJ (bd.getField "capitalAllowances")
          (JValue.orElseJ (bd.getField "depreciation")
            (JValue.orElseJ (data.getField "totalDeductions")
              (JValue.num (JNum.q 0))))
        taxableAmount := JValue.orElseJ (bd.getField "profitBeforeTax")
          (JValue.orElseJ (bd.getField "chargeableIncome")
            (JValue.orElseJ (data.getField "taxableAmount")
              (JValue.num (JNum.q 0))))
        taxId := JValue.orElseJ (data.getField "taxId") (JValue.str "Not provided")
        businessType := JValue.orElseJ (data.getField "businessType")
          (JValue.str "Not provided") }
    (applySoftConstraints normalizedData).1
  else
    let numField (v : JValue) : JValue :=
      if v.isNumber then v else JValue.num (JNum.q 0)
    let normalizedData : ExtractedTaxData :=
      { taxpayerName := JValue.orElseJ (data.getField "taxpayerName")
          (JValue.str "Not provided")
        taxYear := JValue.orElseJ (data.getField "taxYear")
          (JValue.num (JNum.q currentYear))
        totalIncome := numField (data.getField "totalIncome")
        totalExpenses := numField (data.getField "totalExpenses")
        totalDeductions := numField (data.getField "totalDeductions")
        taxableAmount := numField (data.getField "taxableAmount")
        taxId := JValue.orElseJ (data.getField "taxId") (JValue.str "Not provided")
        businessType := JValue.orElseJ (data.getField "businessType")
          (JValue.str "Not provided") }
    (applySoftConstraints normalizedData).1

/-- `extractFromRawText`: direct regex extraction from text (no soft
constraints are applied on this path). -/
def extractFromRawText (text : String) : ExtractedTaxData :=
  let companyName := (extractCompanyInfo text).1
  let businessType := (extractCompanyInfo text).2
  let taxYear := extractYearFromText text
  let amounts := extractTaxAmounts text
  { taxpayerName := JValue.str companyName
    taxYear := JValue.num (JNum.q taxYear)
    totalIncome := JValue.num amounts.totalIncome
    totalExpenses := JValue.num amounts.totalExpenses
    totalDeductions := JValue.num amounts.totalDeductions
    taxableAmount := JValue.num amounts.taxableAmount
    taxId := JValue.str "Not provided"
    businessType := JValue.str businessType }

/-- `parseAIResponse` (enhanced revision).  The `originalDocumentText ||
content` fallback makes an empty original text fall back to the raw
content; reading a property of a primitive parse result throws and is
absorbed by the outer catch into `extractFromRawText`. -/
def parseAIResponse (content : String) (originalDocumentText : Option String) :
    ExtractedTaxData :=
  let fallbackText :=
    match originalDocumentText with
    | some t => if t ≠ "" then t else content
    | none => content
  match safeJSONParse content with
  | none => extractFromRawText fallbackText
  | some extractedData =>
    if ¬ extractedData.truthy then extractFromRawText fallbackText
    else
      match extractedData with
      | JValue.num _ => extractFromRawText fallbackText
      | JValue.str _ => extractFromRawText fallbackText
      | JValue.bool _ => extractFromRawText fallbackText
      | _ =>
        if extractedData.hasProp "validationData" then
          validateExtractedData extractedData
        else if extractedData.hasProp "Balance_Sheet" ∨
            extractedData.hasProp "Profit_and_Loss" then
          parseFinancialStatementFormat extractedData fallbackText
        else if isSimplifiedResponse extractedData then
          parseSimplifiedResponse extractedData fallbackText
        else processStandardFormat extractedData fallbackText

/-! #### Provider orchestration -/

/-- `getProvidersToTry`: the preferred provider first when it is live,
then the remaining live providers in registration order. -/
def getProvidersToTry (availableProviders : List String)
    (preferredProvider : String) : List String :=
  if availableProviders.contains preferredProvider then
    preferredProvider :: availableProviders.filter (fun p => p ≠ preferredProvider)
  else availableProviders

/-- The provider loop of `extractTaxData`.  `attempt` abstracts one
`extractWithProvider` round-trip (`none` = the call threw).  The first
component records the providers invoked, in order. -/
def tryProvidersTrace (attempt : String → Option ExtractedTaxData) :
    List String → List String × Option ExtractedTaxData
  | [] => ([], none)
  | p :: rest =>
    match attempt p with
    | some r => ([p], some r)
    | none =>
      let (t, res) := tryProvidersTrace attempt rest
      (p :: t, res)

/-- `extractTaxData`: default record when no provider is live, otherwise
the preference-ordered fallback loop, defaulting when every provider
fails.  (The vector-store side effect of the source has no bearing on the
returned record and is omitted.) -/
def extractTaxData (availableProviders : List String) (preferredProvider : String)
    (attempt : String → Option ExtractedTaxData) :
    List String × ExtractedTaxData :=
  if availableProviders.isEmpty then ([], getDefaultTaxData)
  else
    let (trace, res) :=
      tryProvidersTrace attempt (getProvidersToTry availableProviders preferredProvider)
    (trace, res.getD getDefaultTaxData)

/-! ### Statement-level shape predicates -/

/-- A value that is neither `undefined` nor `null`. -/
def definedV : JValue → Bool
  | JValue.undef => false
  | JValue.null => false
  | _ => true

/-- The four numeric fields are JavaScript numbers (possibly NaN). -/
def numericShape (r : ExtractedTaxData) : Prop :=
  r.totalIncome.isNumber = true ∧ r.totalExpenses.isNumber = true ∧
  r.totalDeductions.isNumber = true ∧ r.taxableAmount.isNumber = true

/-- The four numeric fields are finite, non-NaN numbers. -/
def finiteShape (r : ExtractedTaxData) : Prop :=
  r.totalIncome.isFiniteNumber = true ∧ r.totalExpenses.isFiniteNumber = true ∧
  r.totalDeductions.isFiniteNumber = true ∧ r.taxableAmount.isFiniteNumber = true

/-- All eight canonical fields are defined (neither undefined nor null). -/
def allDefined (r : ExtractedTaxData) : Prop :=
  definedV r.taxpayerName = true ∧ definedV r.taxYear = true ∧
  definedV r.totalIncome = true ∧ definedV r.totalExpenses = true ∧
  definedV r.totalDeductions = true ∧ definedV r.taxableAmount = true ∧
  definedV r.taxId = true ∧ definedV r.businessType = true

/-- The warning text of the expense cap. -/
def capWarningMsg : String := "Expenses were capped at maximum allowed ratio to revenue"

/-! ### Helper lemmas -/

/-- Field-level characterization of `applySoftConstraints`. -/
theorem applySoftConstraints_fst (data : ExtractedTaxData) :
    (applySoftConstraints data).1 =
      { data with
        totalIncome := JValue.num (JNum.q (validateNumericValue data.totalIncome))
        totalExpenses := JValue.num (JNum.q (validateExpensesCap
          (validateNumericValue data.totalExpenses)
          (validateNumericValue data.totalIncome)))
        totalDeductions := JValue.num (JNum.q (validateNumericValue data.totalDeductions))
        taxableAmount := JValue.num (JNum.q ((validateTaxableAmount
          (validateNumericValue data.taxableAmount)
          (validateNumericValue data.totalIncome -
            validateExpensesCap (validateNumericValue data.totalExpenses)
              (validateNumericValue data.totalIncome) -
            validateNumericValue data.totalDeductions)
          (validateNumericValue data.totalIncome)).1)) } := rfl

theorem soft_finiteShape (data : ExtractedTaxData) :
    finiteShape (applySoftConstraints data).1 := by
  rw [applySoftConstraints_fst]
  exact ⟨rfl, rfl, rfl, rfl⟩

theorem soft_numericShape (data : ExtractedTaxData) :
    numericShape (applySoftConstraints data).1 := by
  rw [applySoftConstraints_fst]
  exact ⟨rfl, rfl, rfl, rfl⟩

theorem rawText_numericShape (t : String) : numericShape (extractFromRawText t) :=
  ⟨rfl, rfl, rfl, rfl⟩

theorem orElse_defined (v d : JValue) (hd : definedV d = true) :
    definedV (JValue.orElseJ v d) = true := by
  unfold JValue.orElseJ
  split
  · next h => cases v <;> simp_all [JValue.truthy, definedV]
  · exact hd

theorem soft_allDefined (data : ExtractedTaxData)
    (h1 : definedV data.taxpayerName = true) (h2 : definedV data.taxYear = true)
    (h3 : definedV data.taxId = true) (h4 : definedV data.businessType = true) :
    allDefined (applySoftConstraints data).1 := by
  rw [applySoftConstraints_fst]
  exact ⟨h1, h2, rfl, rfl, rfl, rfl, h3, h4⟩

theorem rawText_allDefined (t : String) : allDefined (extractFromRawText t) :=
  ⟨rfl, rfl, rfl, rfl, rfl, rfl, rfl, rfl⟩

theorem simplified_allDefined (d : JValue) (t : String) :
    allDefined (parseSimplifiedResponse d t) :=
  soft_allDefined _ rfl rfl rfl rfl

theorem finStatement_allDefined (d : JValue) (t : String) :
    allDefined (parseFinancialStatementFormat d t) :=
  soft_allDefined _ rfl rfl rfl rfl

theorem standard_allDefined (d : JValue) (t : String) :
    allDefined (processStandardFormat d t) := by
  unfold processStandardFormat
  dsimp only
  split
  · exact soft_allDefined _ (orElse_defined _ _ rfl) (orElse_defined _ _ rfl)
      (orElse_defined _ _ rfl) (orElse_defined _ _ rfl)
  · exact soft_allDefined _ (orElse_defined _ _ rfl) (orElse_defined _ _ rfl)
      (orElse_defined _ _ rfl) (orElse_defined _ _ rfl)

theorem standard_numericShape (d : JValue) (t : String) :
    numericShape (processStandardFormat d t) := by
  unfold processStandardFormat
  dsimp only
  split
  · exact soft_numericShape _
  · exact soft_numericShape _

theorem validateExtracted_numericShape (d : JValue) :
    numericShape (validateExtractedData d) := soft_numericShape _

theorem simplified_numericShape (d : JValue) (t : String) :
    numericShape (parseSimplifiedResponse d t) := soft_numericShape _

theorem finStatement_numericShape (d : JValue) (t : String) :
    numericShape (parseFinancialStatementFormat d t) := soft_numericShape _

theorem cap_idem (te ti : ℚ) :
    validateExpensesCap (validateExpensesCap te ti) ti = validateExpensesCap te ti := by
  unfold validateExpensesCap
  by_cases h : 0 < ti ∧ ti * 3 < te
  · rw [if_pos h]
    have h5 : ti * 3 < min te (ti * 5) := lt_min h.2 (by nlinarith [h.1])
    rw [if_pos ⟨h.1, h5⟩, min_assoc, min_self]
  · rw [if_neg h, if_neg h]

theorem vta_idem (ta c ti : ℚ) :
    (validateTaxableAmount (validateTaxableAmount ta c ti).1 c ti).1 =
      (validateTaxableAmount ta c ti).1 := by
  by_cases h1 : max 1000 (ti * (1 / 10)) < |c - ta|
  · by_cases h2 : ta = 0 ∧ c ≠ 0
    · have hv : (validateTaxableAmount ta c ti).1 = c := by
        unfold validateTaxableAmount
        rw [if_pos h1, if_pos h2]
      rw [hv]
      unfold validateTaxableAmount
      have : ¬ max 1000 (ti * (1 / 10)) < |c - c| := by
        simp only [sub_self, abs_zero, not_lt]
        exact le_trans (by norm_num) (le_max_left _ _)
      rw [if_neg this]
    · have hv : (validateTaxableAmount ta c ti).1 = ta := by
        unfold validateTaxableAmount
        rw [if_pos h1, if_neg h2]
      rw [hv]
      unfold validateTaxableAmount
      rw [if_pos h1, if_neg h2]
  · have hv : (validateTaxableAmount ta c ti).1 = ta := by
      unfold validateTaxableAmount
      rw [if_neg h1]
    rw [hv]
    unfold validateTaxableAmount
    rw [if_neg h1]

theorem soft_warnings_numeric (r : ExtractedTaxData) (ti te td ta : ℚ)
    (hti : r.totalIncome = JValue.num (JNum.q ti))
    (hte : r.totalExpenses = JValue.num (JNum.q te))
    (htd : r.totalDeductions = JValue.num (JNum.q td))
    (hta : r.taxableAmount = JValue.num (JNum.q ta)) :
    (applySoftConstraints r).2 =
      (if ti ≤ 0 ∧ ¬ r.businessType.strictEq (JValue.str "Holding Company") = true
        then ["Revenue is zero or negative for operational company"] else []) ++
      (if validateExpensesCap te ti ≠ te then [capWarningMsg] else []) ++
      (validateTaxableAmount ta (ti - validateExpensesCap te ti - td) ti).2.toList := by
  unfold applySoftConstraints
  rw [hti, hte, htd, hta]
  dsimp only [validateNumericValue]
  simp [JValue.strictEq, JNum.seqb, capWarningMsg]

theorem jnum_sub_qq (a b : ℚ) : JNum.sub (JNum.q a) (JNum.q b) = JNum.q (a - b) := by
  simp [JNum.sub, JNum.add, JNum.neg, sub_eq_add_neg]

theorem jnum_div_qq (a b : ℚ) (hb : b ≠ 0) :
    JNum.div (JNum.q a) (JNum.q b) = JNum.q (a / b) := by
  simp [JNum.div, hb]

theorem tryProviders_all_fail (attempt : String → Option ExtractedTaxData)
    (l : List String) (h : ∀ p ∈ l, attempt p = none) :
    tryProvidersTrace attempt l = (l, none) := by
  induction l with
  | nil => rfl
  | cons p rest ih =>
    simp only [tryProvidersTrace, h p (List.mem_cons_self p rest)]
    rw [ih (fun q hq => h q (List.mem_cons_of_mem p hq))]

theorem c4_first_success (avail : List String) (pref : String)
    (attempt : String → Option ExtractedTaxData) (B : String) (rest : List String)
    (r : ExtractedTaxData) (hne : avail ≠ [])
    (horder : getProvidersToTry avail pref = pref :: B :: rest)
    (hA : attempt pref = none) (hB : attempt B = some r) :
    extractTaxData avail pref attempt = ([pref, B], r) := by
  unfold extractTaxData
  rw [if_neg (by simp [hne]), horder]
  simp [tryProvidersTrace, hA, hB]

theorem c4_all_fail (avail : List String) (pref : String)
    (attempt : String → Option ExtractedTaxData) (hne : avail ≠ [])
    (hfail : ∀ p ∈ getProvidersToTry avail pref, attempt p = none) :
    extractTaxData avail pref attempt =
      (getProvidersToTry avail pref, getDefaultTaxData) := by
  unfold extractTaxData
  rw [if_neg (by simp [hne]), tryProviders_all_fail attempt _ hfail]
  rfl

/-! ### Claim theorems -/

/-- Claim C1, counterexample: on the raw model response consisting only of
a `validationData` key, `parseAIResponse` returns a record whose
`taxpayerName` field is `undefined` — contradicting the claim that no
returned field is ever undefined or null. -/
theorem parseAIResponse_enhanced_undefined_field :
    (parseAIResponse "\x7b\"validationData\":\x7b\x7d\x7d" none).taxpayerName =
      JValue.undef := by
  with_unfolding_all rfl

/-- Claim C1, amended: `parseAIResponse` is total and always returns a
record whose four numeric fields are JavaScript numbers; every one of the
eight canonical fields is defined (neither undefined nor null) whenever
the parsed response is not an object carrying a `validationData` key — on
that Enhanced path the string fields and taxYear pass through unvalidated
and may be undefined. -/
theorem parseAIResponse_shape (content : String) (orig : Option String) :
    numericShape (parseAIResponse content orig) ∧
    (safeJSONParse content = none → allDefined (parseAIResponse content orig)) ∧
    (∀ ed, safeJSONParse content = some ed → ed.hasProp "validationData" = false →
      allDefined (parseAIResponse content orig)) := by
  unfold parseAIResponse
  dsimp only
  rcases h : safeJSONParse content with _ | ed
  · exact ⟨rawText_numericShape _, fun _ => rawText_allDefined _,
      fun ed he => by cases he⟩
  · refine ⟨?_, ?_, ?_⟩
    · by_cases ht : ed.truthy
      · simp only [ht, not_true_eq_false, if_false]
        cases ed with
        | undef => simp [JValue.truthy] at ht
        | null => simp [JValue.truthy] at ht
        | num n => exact rawText_numericShape _
        | str s => exact rawText_numericShape _
        | bool b => exact rawText_numericShape _
        | arr xs =>
          dsimp only
          split
          · exact validateExtracted_numericShape _
          · split
            · exact finStatement_numericShape _ _
            · split
              · exact simplified_numericShape _ _
              · exact standard_numericShape _ _
        | obj fs =>
          dsimp only
          split
          · exact validateExtracted_numericShape _
          · split
            · exact finStatement_numericShape _ _
            · split
              · exact simplified_numericShape _ _
              · exact standard_numericShape _ _
      · simp only [Bool.not_eq_true] at ht
        simp only [ht, Bool.not_false, if_true]
        exact rawText_numericShape _
    · intro hn; exact Option.noConfusion hn
    · intro ed' he hprop
      have hee := Option.some.inj he
      subst hee
      by_cases ht : ed.truthy
      · simp only [ht, not_true_eq_false, if_false]
        cases ed with
        | undef => simp [JValue.truthy] at ht
        | null => simp [JValue.truthy] at ht
        | num n => exact rawText_allDefined _
        | str s => exact rawText_allDefined _
        | bool b => exact rawText_allDefined _
        | arr xs =>
          dsimp only
          split
          · next hvd => simp [hprop] at hvd
          · split
            · exact finStatement_allDefined _ _
            · split
              · exact simplified_allDefined _ _
              · exact standard_allDefined _ _
        | obj fs =>
          dsimp only
          split
          · next hvd => simp [hprop] at hvd
          · split
            · exact finStatement_allDefined _ _
            · split
              · exact simplified_allDefined _ _
              · exact standard_allDefined _ _
      · simp only [Bool.not_eq_true] at ht
        simp only [ht, Bool.not_false, if_true]
        exact rawText_allDefined _

/-- Witness for the C1 theorem at a concrete input: the empty-object
response parses, carries no validationData key, and yields a record with
all eight fields defined. -/
theorem parseAIResponse_shape_witness :
    safeJSONParse "\x7b\x7d" = some (JValue.obj []) ∧
      allDefined (parseAIResponse "\x7b\x7d" none) :=
  ⟨by with_unfolding_all rfl,
    (parseAIResponse_shape "\x7b\x7d" none).2.2 (JValue.obj [])
      (by with_unfolding_all rfl) (by with_unfolding_all rfl)⟩

/-- Claim C2, counterexample: feeding the pipeline the unparsable text
`Revenue ,` routes through the regex text-extraction fallback, whose
captured group contains no digit, and the returned totalIncome is NaN —
the fallback path applies no non-finite reset. -/
theorem extraction_fallback_nan :
    (parseAIResponse "Revenue ," none).totalIncome = JValue.num JNum.nan := by
  with_unfolding_all rfl

/-- Claim C2, amended: every record that passes through
`applySoftConstraints` (the standard, simplified, financial-statement and
enhanced paths) has all four numeric fields finite and non-NaN, any
non-finite value having been reset to 0; the raw-text fallback path does
not apply this reset and can return NaN. -/
theorem applySoftConstraints_finite (r : ExtractedTaxData) :
    finiteShape (applySoftConstraints r).1 :=
  soft_finiteShape r

/-- Claim C3: `safeJSONParse` runs its three stages in a fixed order —
direct parse, parse after cleaning, rescue parse — a later stage being
consulted only when the earlier stage threw, and the first success
determining the result. -/
theorem safeJSONParse_staged (content : String) :
    (∀ v, jsonParse content = some v → safeJSONParse content = some v) ∧
    (jsonParse content = none → ∀ cl w, cleanJSONString content = some cl →
      jsonParse cl = some w → safeJSONParse content = some w) ∧
    (jsonParse content = none → (cleanJSONString content).bind jsonParse = none →
      safeJSONParse content = jsonParse (rescueRepair content)) := by
  refine ⟨?_, ?_, ?_⟩
  · intro v hv
    unfold safeJSONParse
    rw [hv]
  · intro h0 cl w hcl hw
    unfold safeJSONParse
    rw [h0, hcl]
    dsimp only
    rw [hw]
  · intro h0 hbind
    unfold safeJSONParse
    rw [h0]
    cases hcl : cleanJSONString content with
    | none => rfl
    | some cl =>
      have hbind' : jsonParse cl = none := by
        rw [hcl] at hbind
        exact hbind
      dsimp only
      rw [hbind']

/-- Witness for the C3 theorem: the markdown-fenced, trailing-comma
response of the spec fails the direct parse and succeeds at the cleaned
stage, which determines the result. -/
theorem safeJSONParse_staged_witness :
    jsonParse "```json\n\x7b\"totalIncome\": 500, \"totalExpenses\": 300,\x7d\n```" = none ∧
    safeJSONParse "```json\n\x7b\"totalIncome\": 500, \"totalExpenses\": 300,\x7d\n```" =
      some (JValue.obj [("totalIncome", JValue.num (JNum.q 500)),
        ("totalExpenses", JValue.num (JNum.q 300))]) :=
  ⟨by with_unfolding_all rfl,
    (safeJSONParse_staged _).2.1 (by with_unfolding_all rfl)
      "\x7b\"totalIncome\": 500, \"totalExpenses\": 300\x7d" _
      (by with_unfolding_all rfl) (by with_unfolding_all rfl)⟩

/-- Claim C4: with a non-empty live-provider list, when the preferred
provider A throws and the next candidate B succeeds, the orchestration
attempts exactly A then B — no later provider is invoked — and returns
the result of B; when every candidate fails, the zeroed default record is
returned. -/
theorem extractTaxData_fallback :
    (∀ (avail : List String) (pref : String)
      (attempt : String → Option ExtractedTaxData) (B : String)
      (rest : List String) (r : ExtractedTaxData), avail ≠ [] →
      getProvidersToTry avail pref = pref :: B :: rest →
      attempt pref = none → attempt B = some r →
      extractTaxData avail pref attempt = ([pref, B], r)) ∧
    (∀ (avail : List String) (pref : String)
      (attempt : String → Option ExtractedTaxData), avail ≠ [] →
      (∀ p ∈ getProvidersToTry avail pref, attempt p = none) →
      extractTaxData avail pref attempt =
        (getProvidersToTry avail pref, getDefaultTaxData)) :=
  ⟨c4_first_success, c4_all_fail⟩

/-- Witness for the C4 theorem: preferred `claude` fails, `ollama`
succeeds, `openai` stays untried; and the all-fail case defaults. -/
theorem extractTaxData_fallback_witness :
    extractTaxData ["ollama", "claude", "openai"] "claude"
      (fun p => if p = "ollama" then some getDefaultTaxData else none) =
      (["claude", "ollama"], getDefaultTaxData) ∧
    extractTaxData ["ollama", "claude", "openai"] "claude" (fun _ => none) =
      (["claude", "ollama", "openai"], getDefaultTaxData) :=
  ⟨extractTaxData_fallback.1 ["ollama", "claude", "openai"] "claude" _ "ollama"
      ["openai"] getDefaultTaxData (by simp) (by with_unfolding_all rfl)
      (by simp) (by simp),
    by
      have h := extractTaxData_fallback.2 ["ollama", "claude", "openai"] "claude"
        (fun _ => none) (by simp) (fun p _ => rfl)
      rw [h]
      with_unfolding_all rfl⟩

theorem c5_revenue_rule (v : JValue) (r : ExtractedTaxData) (rv ti : ℚ)
    (hrv : v.getField "revenue" = JValue.num (JNum.q rv))
    (hti : r.totalIncome = JValue.num (JNum.q ti))
    (hpos : 0 < rv) (hdev : ti = 0 ∨ 1 / 10 < |rv - ti| / rv) :
    (performCrossValidation v r).correctedRevenue = some (JValue.num (JNum.q rv)) ∧
    (performCrossValidation v r).corrections ≠ [] := by
  have hne : rv ≠ ti := by
    rcases hdev with h0 | hgt
    · subst h0; exact ne_of_gt hpos
    · intro he
      rw [he, sub_self, abs_zero, zero_div] at hgt
      norm_num at hgt
  have hcond : (v.getField "revenue").truthy = true ∧
      ¬ (v.getField "revenue").strictEq r.totalIncome = true ∧
      (jvGtb (v.getField "revenue") (JValue.num (JNum.q 0)) = true ∧
        (r.totalIncome.strictEq (JValue.num (JNum.q 0)) = true ∨
          JNum.gtb ((JNum.absJ (jvSub (v.getField "revenue") r.totalIncome)).div
            (toNumber (v.getField "revenue"))) (JNum.q (1 / 10)) = true)) := by
    rw [hrv, hti]
    refine ⟨?_, ?_, ?_, ?_⟩
    · simp [JValue.truthy, JNum.truthy, ne_of_gt hpos]
    · simp [JValue.strictEq, JNum.seqb, hne]
    · simp [jvGtb, toNumber, JNum.gtb, JNum.ltb, hpos]
    · rcases hdev with h0 | hgt
      · exact Or.inl (by simp [JValue.strictEq, JNum.seqb, h0])
      · refine Or.inr ?_
        simp only [jvSub, toNumber, jnum_sub_qq, JNum.absJ]
        rw [jnum_div_qq _ _ (ne_of_gt hpos)]
        simp only [JNum.gtb, JNum.ltb, decide_eq_true_eq]
        exact hgt
  unfold performCrossValidation
  dsimp only
  constructor
  · rw [if_pos hcond, hrv]
  · rw [if_pos hcond]
    simp

theorem c5_pbt_rule (v : JValue) (r : ExtractedTaxData) (pb ta : ℚ)
    (hpb : v.getField "profitBeforeTax" = JValue.num (JNum.q pb))
    (hta : r.taxableAmount = JValue.num (JNum.q ta))
    (hnz : pb ≠ 0) (hdiff : 100 < |pb - ta|) :
    (performCrossValidation v r).correctedProfitBeforeTax =
      some (JValue.num (JNum.q pb)) := by
  have hne : pb ≠ ta := by
    intro he; rw [he, sub_self, abs_zero] at hdiff; norm_num at hdiff
  have hcond : (v.getField "profitBeforeTax").truthy = true ∧
      ¬ (v.getField "profitBeforeTax").strictEq r.taxableAmount = true ∧
      JNum.gtb (JNum.absJ (jvSub (v.getField "profitBeforeTax") r.taxableAmount))
        (JNum.q 100) = true := by
    rw [hpb, hta]
    refine ⟨?_, ?_, ?_⟩
    · simp [JValue.truthy, JNum.truthy, hnz]
    · simp [JValue.strictEq, JNum.seqb, hne]
    · simp only [jvSub, toNumber, jnum_sub_qq, JNum.absJ, JNum.gtb, JNum.ltb,
        decide_eq_true_eq]
      exact hdiff
  unfold performCrossValidation
  dsimp only
  rw [if_pos hcond, hpb]

/-- Claim C5, counterexample: a validation payload carrying
`profitBeforeTax: 0` — present, and 500 away from the recorded
taxableAmount of 500 — produces no correction, because the source guards
the rule with truthiness of the payload value, not with presence. -/
theorem performCrossValidation_pbt_zero_ignored :
    (performCrossValidation (JValue.obj [("profitBeforeTax", JValue.num (JNum.q 0))])
      { taxpayerName := JValue.str "X", taxYear := JValue.num (JNum.q 2023),
        totalIncome := JValue.num (JNum.q 0), totalExpenses := JValue.num (JNum.q 0),
        totalDeductions := JValue.num (JNum.q 0),
        taxableAmount := JValue.num (JNum.q 500), taxId := JValue.str "T",
        businessType := JValue.str "B" }).correctedProfitBeforeTax = none ∧
    (performCrossValidation (JValue.obj [("profitBeforeTax", JValue.num (JNum.q 0))])
      { taxpayerName := JValue.str "X", taxYear := JValue.num (JNum.q 2023),
        totalIncome := JValue.num (JNum.q 0), totalExpenses := JValue.num (JNum.q 0),
        totalDeductions := JValue.num (JNum.q 0),
        taxableAmount := JValue.num (JNum.q 500), taxId := JValue.str "T",
        businessType := JValue.str "B" }).corrections = [] :=
  ⟨by with_unfolding_all rfl, by with_unfolding_all rfl⟩

/-- Claim C5, amended: revenue is replaced when validation.revenue is a
positive number differing from a numeric totalIncome by more than 10
percent relative or when totalIncome is exactly 0 (with a correction
recorded); taxableAmount is replaced when validation.profitBeforeTax is a
nonzero number differing from a numeric taxableAmount by more than 100;
and the record with income and taxable 0 under payload revenue 50000,
profitBeforeTax 15000 yields 50000 and 15000 with exactly two correction
entries. -/
theorem performCrossValidation_rules :
    (∀ (v : JValue) (r : ExtractedTaxData) (rv ti : ℚ),
      v.getField "revenue" = JValue.num (JNum.q rv) →
      r.totalIncome = JValue.num (JNum.q ti) →
      0 < rv → (ti = 0 ∨ 1 / 10 < |rv - ti| / rv) →
      (performCrossValidation v r).correctedRevenue =
        some (JValue.num (JNum.q rv)) ∧
      (performCrossValidation v r).corrections ≠ []) ∧
    (∀ (v : JValue) (r : ExtractedTaxData) (pb ta : ℚ),
      v.getField "profitBeforeTax" = JValue.num (JNum.q pb) →
      r.taxableAmount = JValue.num (JNum.q ta) →
      pb ≠ 0 → 100 < |pb - ta| →
      (performCrossValidation v r).correctedProfitBeforeTax =
        some (JValue.num (JNum.q pb))) ∧
    ((validateExtractedData (JValue.obj
        [("validationData", JValue.obj [("revenue", JNum.q 50000 |> JValue.num),
          ("profitBeforeTax", JNum.q 15000 |> JValue.num)]),
         ("totalIncome", JValue.num (JNum.q 0)),
         ("taxableAmount", JValue.num (JNum.q 0))])).totalIncome =
        JValue.num (JNum.q 50000) ∧
      (validateExtractedData (JValue.obj
        [("validationData", JValue.obj [("revenue", JNum.q 50000 |> JValue.num),
          ("profitBeforeTax", JNum.q 15000 |> JValue.num)]),
         ("totalIncome", JValue.num (JNum.q 0)),
         ("taxableAmount", JValue.num (JNum.q 0))])).taxableAmount =
        JValue.num (JNum.q 15000) ∧
      (performCrossValidation
        (JValue.obj [("revenue", JNum.q 50000 |> JValue.num),
          ("profitBeforeTax", JNum.q 15000 |> JValue.num)])
        { taxpayerName := JValue.undef, taxYear := JValue.undef,
          totalIncome := JValue.num (JNum.q 0), totalExpenses := JValue.undef,
          totalDeductions := JValue.undef, taxableAmount := JValue.num (JNum.q 0),
          taxId := JValue.undef,
          businessType := JValue.undef }).corrections.length = 2) :=
  ⟨c5_revenue_rule, c5_pbt_rule,
    by with_unfolding_all rfl, by with_unfolding_all rfl, by with_unfolding_all rfl⟩

/-- Witness for the C5 theorem: the two general rules applied at the
concrete example payload. -/
theorem performCrossValidation_rules_witness :
    (performCrossValidation
      (JValue.obj [("revenue", JValue.num (JNum.q 50000)),
        ("profitBeforeTax", JValue.num (JNum.q 15000))])
      { taxpayerName := JValue.undef, taxYear := JValue.undef,
        totalIncome := JValue.num (JNum.q 0), totalExpenses := JValue.undef,
        totalDeductions := JValue.undef, taxableAmount := JValue.num (JNum.q 0),
        taxId := JValue.undef, businessType := JValue.undef }).correctedRevenue =
      some (JValue.num (JNum.q 50000)) ∧
    (performCrossValidation
      (JValue.obj [("revenue", JValue.num (JNum.q 50000)),
        ("profitBeforeTax", JValue.num (JNum.q 15000))])
      { taxpayerName := JValue.undef, taxYear := JValue.undef,
        totalIncome := JValue.num (JNum.q 0), totalExpenses := JValue.undef,
        totalDeductions := JValue.undef, taxableAmount := JValue.num (JNum.q 0),
        taxId := JValue.undef,
        businessType := JValue.undef }).correctedProfitBeforeTax =
      some (JValue.num (JNum.q 15000)) :=
  ⟨(performCrossValidation_rules.1 _ _ 50000 0 (by with_unfolding_all rfl)
      rfl (by norm_num) (Or.inl rfl)).1,
    performCrossValidation_rules.2.1 _ _ 15000 0 (by with_unfolding_all rfl)
      rfl (by norm_num) (by norm_num)⟩

/-- Claim C6, counterexample: income 1000 with expenses 4000 satisfies
the trigger (expenses above three times income), yet no warning at all is
recorded and expenses stay 4000 — the cap message only appears when the
value actually exceeds five times income. -/
theorem applySoftConstraints_cap_no_warning :
    (applySoftConstraints
      { taxpayerName := JValue.str "X", taxYear := JValue.num (JNum.q 2023),
        totalIncome := JValue.num (JNum.q 1000),
        totalExpenses := JValue.num (JNum.q 4000),
        totalDeductions := JValue.num (JNum.q 0),
        taxableAmount := JValue.num (JNum.q (-3000)), taxId := JValue.str "T",
        businessType := JValue.str "B" }).2 = [] ∧
    (applySoftConstraints
      { taxpayerName := JValue.str "X", taxYear := JValue.num (JNum.q 2023),
        totalIncome := JValue.num (JNum.q 1000),
        totalExpenses := JValue.num (JNum.q 4000),
        totalDeductions := JValue.num (JNum.q 0),
        taxableAmount := JValue.num (JNum.q (-3000)), taxId := JValue.str "T",
        businessType := JValue.str "B" }).1.totalExpenses =
      JValue.num (JNum.q 4000) := by
  have hcap : validateExpensesCap 4000 1000 = 4000 := by
    unfold validateExpensesCap
    rw [if_pos (by norm_num)]
    norm_num
  have hvta : validateTaxableAmount (-3000) (1000 - 4000 - 0) 1000 =
      ((-3000 : ℚ), none) := by
    unfold validateTaxableAmount
    rw [if_neg (by norm_num)]
  constructor
  · rw [soft_warnings_numeric _ 1000 4000 0 (-3000) rfl rfl rfl rfl, hcap, hvta]
    simp [JValue.strictEq]
  · rw [applySoftConstraints_fst]
    dsimp only [validateNumericValue]
    rw [hcap]

/-- Claim C6, amended: for a numeric record with totalIncome > 0 and
totalExpenses > 3 × totalIncome, `applySoftConstraints` caps
totalExpenses at 5 × totalIncome (that is, replaces it by the minimum of
the two) and leaves totalIncome unchanged, recording the cap warning
exactly when the value was actually lowered (totalExpenses above
5 × totalIncome). -/
theorem applySoftConstraints_cap (r : ExtractedTaxData) (ti te td ta : ℚ)
    (hti : r.totalIncome = JValue.num (JNum.q ti))
    (hte : r.totalExpenses = JValue.num (JNum.q te))
    (htd : r.totalDeductions = JValue.num (JNum.q td))
    (hta : r.taxableAmount = JValue.num (JNum.q ta))
    (hpos : 0 < ti) (hover : ti * 3 < te) :
    (applySoftConstraints r).1.totalExpenses =
      JValue.num (JNum.q (min te (ti * 5))) ∧
    (applySoftConstraints r).1.totalIncome = JValue.num (JNum.q ti) ∧
    (ti * 5 < te → capWarningMsg ∈ (applySoftConstraints r).2) := by
  have hcap : validateExpensesCap te ti = min te (ti * 5) := by
    unfold validateExpensesCap; rw [if_pos ⟨hpos, hover⟩]
  refine ⟨?_, ?_, ?_⟩
  · rw [applySoftConstraints_fst]
    dsimp only
    rw [hte, hti]
    dsimp only [validateNumericValue]
    rw [hcap]
  · rw [applySoftConstraints_fst]
    dsimp only
    rw [hti]
    rfl
  · intro hlt
    rw [soft_warnings_numeric r ti te td ta hti hte htd hta]
    have hne : validateExpensesCap te ti ≠ te := by
      rw [hcap, min_eq_right (le_of_lt hlt)]
      exact ne_of_lt hlt
    simp [hne]

/-- Witness for the C6 theorem: the record with income 1000 and expenses
10000 is capped to 5000, income is untouched, and the warning appears. -/
theorem applySoftConstraints_cap_witness :
    (applySoftConstraints
      { taxpayerName := JValue.str "X", taxYear := JValue.num (JNum.q 2023),
        totalIncome := JValue.num (JNum.q 1000),
        totalExpenses := JValue.num (JNum.q 10000),
        totalDeductions := JValue.num (JNum.q 0),
        taxableAmount := JValue.num (JNum.q (-4000)), taxId := JValue.str "T",
        businessType := JValue.str "B" }).1.totalExpenses =
      JValue.num (JNum.q 5000) ∧
    (applySoftConstraints
      { taxpayerName := JValue.str "X", taxYear := JValue.num (JNum.q 2023),
        totalIncome := JValue.num (JNum.q 1000),
        totalExpenses := JValue.num (JNum.q 10000),
        totalDeductions := JValue.num (JNum.q 0),
        taxableAmount := JValue.num (JNum.q (-4000)), taxId := JValue.str "T",
        businessType := JValue.str "B" }).1.totalIncome =
      JValue.num (JNum.q 1000) ∧
    capWarningMsg ∈ (applySoftConstraints
      { taxpayerName := JValue.str "X", taxYear := JValue.num (JNum.q 2023),
        totalIncome := JValue.num (JNum.q 1000),
        totalExpenses := JValue.num (JNum.q 10000),
        totalDeductions := JValue.num (JNum.q 0),
        taxableAmount := JValue.num (JNum.q (-4000)), taxId := JValue.str "T",
        businessType := JValue.str "B" }).2 := by
  have h := applySoftConstraints_cap
    { taxpayerName := JValue.str "X", taxYear := JValue.num (JNum.q 2023),
      totalIncome := JValue.num (JNum.q 1000),
      totalExpenses := JValue.num (JNum.q 10000),
      totalDeductions := JValue.num (JNum.q 0),
      taxableAmount := JValue.num (JNum.q (-4000)), taxId := JValue.str "T",
      businessType := JValue.str "B" }
    1000 10000 0 (-4000) rfl rfl rfl rfl (by norm_num) (by norm_num)
  refine ⟨?_, h.2.1, h.2.2 (by norm_num)⟩
  have h1 := h.1
  rw [show min (10000 : ℚ) (1000 * 5) = 5000 by norm_num] at h1
  exact h1

/-- Claim C7, counterexample: a Profit_and_Loss expense line item carrying
both Amount 100 and Expenses 200 yields 200 — the expense category reads
Expenses before Amount, not the uniform Amount-then-Expenses-then-Cost
order the claim states; and a profit-before-tax item with only an
Expenses value yields 0, since that category reads Amount alone. -/
theorem extractFinancialData_priority_counter :
    (extractFinancialData (JValue.obj [("Profit_and_Loss", JValue.arr [JValue.obj
      [("Account", JValue.str "Operating expenses"),
       ("Amount", JValue.num (JNum.q 100)),
       ("Expenses", JValue.num (JNum.q 200))]])])).expenses = JNum.q 200 ∧
    (extractFinancialData (JValue.obj [("Profit_and_Loss", JValue.arr [JValue.obj
      [("Account", JValue.str "Profit before tax"),
       ("Expenses", JValue.num (JNum.q 77))]])])).profitBeforeTax = JNum.q 0 :=
  ⟨by rfl, by rfl⟩

/-- Claim C7, amended: the matched line-item amount is read through a
per-category property priority — revenue: Amount, Expenses, Total_Income;
expenses: Expenses, Amount, Cost, Total_Expenses; profit-before-tax:
Amount only; deductions: Amount, Expenses — taking the first non-NaN
numeric property, and a category with no matching item yields 0. -/
theorem extractFinancialData_priorities :
    (∀ a e c : ℚ, (extractFinancialData (JValue.obj [("Profit_and_Loss",
      JValue.arr [JValue.obj [("Account", JValue.str "Operating expenses"),
        ("Amount", JValue.num (JNum.q a)), ("Expenses", JValue.num (JNum.q e)),
        ("Cost", JValue.num (JNum.q c))]])])).expenses = JNum.q e) ∧
    (∀ e : ℚ, (extractFinancialData (JValue.obj [("Profit_and_Loss",
      JValue.arr [JValue.obj [("Account", JValue.str "Profit before tax"),
        ("Expenses", JValue.num (JNum.q e))]])])).profitBeforeTax = JNum.q 0) ∧
    (∀ e : ℚ, (extractFinancialData (JValue.obj [("Profit_and_Loss",
      JValue.arr [JValue.obj [("Account", JValue.str "Revenue"),
        ("Expenses", JValue.num (JNum.q e))]])])).revenue = JNum.q e) ∧
    (∀ v : ℚ, (extractFinancialData (JValue.obj [("Profit_and_Loss",
      JValue.arr [JValue.obj [("Account", JValue.str "Revenue"),
        ("Total_Income", JValue.num (JNum.q v))]])])).revenue = JNum.q v) ∧
    (∀ e : ℚ, (extractFinancialData (JValue.obj [("Profit_and_Loss",
      JValue.arr [JValue.obj [("Account", JValue.str "Capital allowances"),
        ("Expenses", JValue.num (JNum.q e))]])])).deductions = JNum.q e) ∧
    (extractFinancialData (JValue.obj [])).revenue = JNum.q 0 ∧
    (extractFinancialData (JValue.obj [])).expenses = JNum.q 0 ∧
    (extractFinancialData (JValue.obj [])).profitBeforeTax = JNum.q 0 ∧
    (extractFinancialData (JValue.obj [])).deductions = JNum.q 0 :=
  ⟨fun _ _ _ => rfl, fun _ => rfl, fun _ => rfl, fun _ => rfl, fun _ => rfl,
    rfl, rfl, rfl, rfl⟩

/-- Claim C8: on the document line `Profit before tax (1,680)` the
text-extraction fallback `extractTaxAmounts` returns +1680, not the
−1680 the parenthesized-negative rule demands — the capture of its regex
never contains the opening parenthesis, so the negation branch of
`parseAmount` cannot fire; the simplified-path scanner
`extractAmountFromText` negates the same line correctly. -/
theorem extractTaxAmounts_paren_bug :
    (extractTaxAmounts "Profit before tax (1,680)").taxableAmount = JNum.q 1680 ∧
    extractAmountFromText "Profit before tax (1,680)" patProfitScan =
      JNum.q (-1680) :=
  ⟨by with_unfolding_all rfl, by with_unfolding_all rfl⟩

/-- Claim C9: `applySoftConstraints` is idempotent on the record — the
non-finite reset, the expense cap and the taxable-amount residual
correction are all at a fixed point after one pass. -/
theorem applySoftConstraints_idem (r : ExtractedTaxData) :
    (applySoftConstraints (applySoftConstraints r).1).1 =
      (applySoftConstraints r).1 := by
  rw [applySoftConstraints_fst r, applySoftConstraints_fst]
  dsimp only [validateNumericValue]
  rw [cap_idem, vta_idem]

/-- Claim C10: in `parseSimplifiedResponse` a recognized key holding a
falsy value (such as an explicit 0) is treated as absent — each figure
chain falls through to the regex text scan of the original document — so
a model-supplied 0 never reaches the output record directly; concretely,
`Revenue: 0` against a document reading `Revenue 777` produces
totalIncome 777. -/
theorem simplified_falsy_fallthrough :
    (∀ (d : JValue) (t : String),
      (d.getField "Revenue").truthy = false →
      (d.getField "Income").truthy = false →
      (d.getField "Sales").truthy = false →
      (d.getField "Turnover").truthy = false →
      simplifiedRevenue d t = JValue.num (extractAmountFromText t patRevenueScan)) ∧
    (∀ (d : JValue) (t : String),
      (d.getField "Expenses").truthy = false →
      (d.getField "TotalExpenses").truthy = false →
      simplifiedExpenses d t = JValue.num (extractAmountFromText t patExpensesScan)) ∧
    (∀ (d : JValue) (t : String),
      (d.getField "ProfitBeforeTax").truthy = false →
      (d.getField "Profit_Before_Tax").truthy = false →
      simplifiedProfitBeforeTax d t =
        JValue.num (extractAmountFromText t patProfitScan)) ∧
    (∀ (d : JValue) (t : String),
      (d.getField "Deductions").truthy = false →
      (d.getField "CapitalAllowances").truthy = false →
      simplifiedDeductions d t =
        JValue.num (extractAmountFromText t patDeductionsScan)) ∧
    (parseSimplifiedResponse (JValue.obj [("Revenue", JValue.num (JNum.q 0))])
      "Revenue 777").totalIncome = JValue.num (JNum.q 777) := by
  refine ⟨?_, ?_, ?_, ?_, by with_unfolding_all rfl⟩
  · intro d t h1 h2 h3 h4
    unfold simplifiedRevenue JValue.orElseJ
    simp [h1, h2, h3, h4]
  · intro d t h1 h2
    unfold simplifiedExpenses JValue.orElseJ
    simp [h1, h2]
  · intro d t h1 h2
    unfold simplifiedProfitBeforeTax JValue.orElseJ
    simp [h1, h2]
  · intro d t h1 h2
    unfold simplifiedDeductions JValue.orElseJ
    simp [h1, h2]

/-- Witness for the C10 theorem: the revenue chain at the concrete
response carrying an explicit `Revenue: 0`. -/
theorem simplified_falsy_fallthrough_witness :
    ((JValue.obj [("Revenue", JValue.num (JNum.q 0))]).getField "Revenue").truthy
      = false ∧
    simplifiedRevenue (JValue.obj [("Revenue", JValue.num (JNum.q 0))])
      "Revenue 777" =
      JValue.num (extractAmountFromText "Revenue 777" patRevenueScan) :=
  ⟨by with_unfolding_all rfl,
    simplified_falsy_fallthrough.1 (JValue.obj [("Revenue", JValue.num (JNum.q 0))])
      "Revenue 777" (by with_unfolding_all rfl) (by with_unfolding_all rfl)
      (by with_unfolding_all rfl) (by with_unfolding_all rfl)⟩

end TaxSpec
